import Mathlib

/-!
# Verification of the DESDE-CERO locomotion / vehicle simulation core

Shallow embedding, over exact rationals, of the parts of the repository that
the spec's testable properties talk about:

* `src/physics/CollisionWorld.js` — the collision index singleton,
* `src/player/PlayerController.js` — the on-foot locomotion controller,
* `src/entities/Vehicle.js` (the upgraded class in the sources) — the vehicle
  dynamics controller,
* `src/gameplay/VehicleInteraction.js`, `src/core/GameState.js` and
  `DirectorMode` — the mode coordinator and enter/exit transitions.

JavaScript numbers are modelled as `ℚ`.  The transcendental primitives the
code calls (`Math.cos`, `Math.sin`, `Math.sqrt`, `Math.atan2`, `Math.pow`,
`Math.PI`) have no exact rational image, so every embedded function is
parametrised by a `TrigOracle` supplying them; the theorems below hold for
every oracle, hence in particular for the real-valued one the browser uses.
The octree owned by `CollisionWorld` is geometry-dependent, so its two
intersection tests are carried as function fields of the world state.
-/

/-- Shallow embedding of `THREE.Vector3` over `ℚ`. -/
structure Vec3 where
  x : ℚ
  y : ℚ
  z : ℚ
deriving DecidableEq, Repr

namespace Vec3

def zero : Vec3 := ⟨0, 0, 0⟩

def add (a b : Vec3) : Vec3 := ⟨a.x + b.x, a.y + b.y, a.z + b.z⟩

def sub (a b : Vec3) : Vec3 := ⟨a.x - b.x, a.y - b.y, a.z - b.z⟩

/-- `v.multiplyScalar(s)`. -/
def smul (s : ℚ) (v : Vec3) : Vec3 := ⟨s * v.x, s * v.y, s * v.z⟩

/-- `a.addScaledVector(b, s)`. -/
def addScaled (a : Vec3) (b : Vec3) (s : ℚ) : Vec3 := add a (smul s b)

def dot (a b : Vec3) : ℚ := a.x * b.x + a.y * b.y + a.z * b.z

def cross (a b : Vec3) : Vec3 :=
  ⟨a.y * b.z - a.z * b.y, a.z * b.x - a.x * b.z, a.x * b.y - a.y * b.x⟩

def lengthSq (v : Vec3) : ℚ := v.x * v.x + v.y * v.y + v.z * v.z

end Vec3

/-- Shallow embedding of `THREE.Quaternion` over `ℚ`. -/
structure Quat where
  x : ℚ
  y : ℚ
  z : ℚ
  w : ℚ
deriving DecidableEq, Repr

/-- Rational stand-ins for the transcendental library functions the code
calls.  Theorems quantify over all oracles, so they hold for the real one. -/
structure TrigOracle where
  cos : ℚ → ℚ
  sin : ℚ → ℚ
  sqrt : ℚ → ℚ
  atan2 : ℚ → ℚ → ℚ
  /-- stand-in for `Math.pow 0.5 e` (exponential friction half-life decay). -/
  powHalf : ℚ → ℚ
  /-- stand-in for the float constant `Math.PI`. -/
  pi : ℚ

/-- A concrete oracle that agrees with the real functions at angle `0`
(`cos 0 = 1`, `sin 0 = 0`); used to evaluate counterexamples. -/
def zeroOracle : TrigOracle :=
  { cos := fun _ => 1, sin := fun _ => 0, sqrt := fun _ => 0,
    atan2 := fun _ _ => 0, powHalf := fun _ => 1, pi := 0 }

/-- `THREE.Vector3.applyQuaternion` (the `t = 2 cross(q, v)` formulation). -/
def applyQuaternion (v : Vec3) (q : Quat) : Vec3 :=
  let qv : Vec3 := ⟨q.x, q.y, q.z⟩
  let t := Vec3.smul 2 (Vec3.cross qv v)
  Vec3.add (Vec3.add v (Vec3.smul q.w t)) (Vec3.cross qv t)

/-- `THREE.Quaternion.setFromAxisAngle`. -/
def quatFromAxisAngle (O : TrigOracle) (axis : Vec3) (angle : ℚ) : Quat :=
  let h := angle / 2
  let s := O.sin h
  ⟨axis.x * s, axis.y * s, axis.z * s, O.cos h⟩

/-- `THREE.Vector3.applyAxisAngle`. -/
def applyAxisAngle (O : TrigOracle) (v : Vec3) (axis : Vec3) (angle : ℚ) : Vec3 :=
  applyQuaternion v (quatFromAxisAngle O axis angle)

/-- `THREE.Quaternion.setFromEuler` for the default `XYZ` order, as used to
keep `mesh.quaternion` in sync with `mesh.rotation`. -/
def quatFromEuler (O : TrigOracle) (e : Vec3) : Quat :=
  let c1 := O.cos (e.x / 2)
  let c2 := O.cos (e.y / 2)
  let c3 := O.cos (e.z / 2)
  let s1 := O.sin (e.x / 2)
  let s2 := O.sin (e.y / 2)
  let s3 := O.sin (e.z / 2)
  ⟨s1 * c2 * c3 + c1 * s2 * s3,
   c1 * s2 * c3 - s1 * c2 * s3,
   c1 * c2 * s3 + s1 * s2 * c3,
   c1 * c2 * c3 - s1 * s2 * s3⟩

/-- `THREE.Vector3.normalize`: divide by `length() || 1`. -/
def vNormalize (O : TrigOracle) (v : Vec3) : Vec3 :=
  let len := O.sqrt (Vec3.lengthSq v)
  let d := if len = 0 then 1 else len
  ⟨v.x / d, v.y / d, v.z / d⟩

/-- `THREE.MathUtils.clamp(value, lo, hi) = max(lo, min(hi, value))`. -/
def mclamp (value lo hi : ℚ) : ℚ := max lo (min hi value)

/-- `THREE.MathUtils.lerp(a, b, t) = a + (b - a) * t`. -/
def mlerp (a b t : ℚ) : ℚ := a + (b - a) * t

/-- `Math.sign`. -/
def msign (v : ℚ) : ℚ := if v > 0 then 1 else if v < 0 then -1 else 0

/-- The exponential-decay smoothing step shared by the player's horizontal
velocity lerp (`PlayerController.update`) and the vehicle's speed lerp
(`Vehicle._applyAcceleration`): `v += (target - v) * f`. -/
def expLerpStep (v target f : ℚ) : ℚ := v + (target - v) * f

-- ── constants.js ─────────────────────────────────────────────────────

def GRAVITY : ℚ := -981/100
def GROUND_Y : ℚ := 0
def WALK_SPEED : ℚ := 3
def RUN_SPEED : ℚ := 7
def SPRINT_SPEED : ℚ := 12
def JUMP_FORCE : ℚ := 8
def VEHICLE_ACCEL_SMOOTHING : ℚ := 6
def VEHICLE_STEER_SMOOTHING : ℚ := 5
def VEHICLE_GRIP_THRESHOLD : ℚ := 7/10
def VEHICLE_BODY_TILT_MAX : ℚ := 8/100
def PLAYER_ACCEL_RATE : ℚ := 50
def PLAYER_DECEL_RATE : ℚ := 40
def PLAYER_AIR_CONTROL : ℚ := 4/10
def COYOTE_TIME : ℚ := 12/100
def JUMP_BUFFER_TIME : ℚ := 1/10

-- ── CollisionWorld.js ────────────────────────────────────────────────

/-- `three/addons` `Capsule` (two endpoints plus radius). -/
structure Capsule where
  start : Vec3
  endP : Vec3
  radius : ℚ
deriving DecidableEq, Repr

/-- `THREE.Sphere`. -/
structure Sphere where
  center : Vec3
  radius : ℚ
deriving DecidableEq, Repr

/-- What `Octree.capsuleIntersect` / `Octree.sphereIntersect` return when they
report a penetration. -/
structure Hit where
  normal : Vec3
  depth : ℚ
deriving DecidableEq, Repr

/-- State of the `CollisionWorldSingleton`.  The octree itself is geometry
that the core does not own, so its two intersection tests are abstracted as
function fields (`none` = no intersection). -/
structure CollisionWorldState where
  ready : Bool
  capsuleIntersect : Capsule → Option Hit
  sphereIntersect : Sphere → Option Hit

/-- The record `{ collided, normal, depth }` produced by the two query
methods of `CollisionWorldSingleton`. -/
structure CollisionQueryResult where
  collided : Bool
  normal : Vec3
  depth : ℚ
deriving DecidableEq, Repr

/-- `CollisionWorldSingleton.capsuleCollision`: returns `null` (here `none`)
when the octree has not been built, otherwise wraps the octree answer. -/
def capsuleCollision (w : CollisionWorldState) (c : Capsule) :
    Option CollisionQueryResult :=
  if !w.ready then none
  else
    match w.capsuleIntersect c with
    | some h => some ⟨true, h.normal, h.depth⟩
    | none => some ⟨false, Vec3.zero, 0⟩

/-- `CollisionWorldSingleton.sphereCollision`: returns `null` (here `none`)
when the octree has not been built, otherwise wraps the octree answer. -/
def sphereCollision (w : CollisionWorldState) (s : Sphere) :
    Option CollisionQueryResult :=
  if !w.ready then none
  else
    match w.sphereIntersect s with
    | some h => some ⟨true, h.normal, h.depth⟩
    | none => some ⟨false, Vec3.zero, 0⟩

/-- An unbuilt collision world (`ready = false`), with arbitrary octree
content, used as the concrete counterexample input. -/
def unbuiltWorld : CollisionWorldState :=
  { ready := false, capsuleIntersect := fun _ => none,
    sphereIntersect := fun _ => none }

def sampleCapsule : Capsule :=
  ⟨⟨0, 7/20, 0⟩, ⟨0, 29/20, 0⟩, 7/20⟩

def sampleSphere : Sphere := ⟨⟨0, 3/2, 0⟩, 3/2⟩

/-- C5 counterexample: before `build()` the queries do NOT return a
no-collision `CollisionQueryResult` with `collided = false` — they return
`null` (`none`).  The callers treat `null` as "no collision", but the value
itself is not a query result record. -/
theorem C5_null_before_build_cex :
    capsuleCollision unbuiltWorld sampleCapsule = none ∧
    sphereCollision unbuiltWorld sampleSphere = none ∧
    ¬(∃ r : CollisionQueryResult,
        capsuleCollision unbuiltWorld sampleCapsule = some r ∧
          r.collided = false) ∧
    ¬(∃ r : CollisionQueryResult,
        sphereCollision unbuiltWorld sampleSphere = some r ∧
          r.collided = false) := by
  refine ⟨rfl, rfl, ?_, ?_⟩ <;> rintro ⟨r, hr, -⟩ <;>
    simp [capsuleCollision, sphereCollision, unbuiltWorld] at hr

/-- C5 (amended): if `build()` has not been called (`ready = false`), both
query methods return `null` (`none`) — in particular they never return a
`collided = true` result and, being total functions, never throw.  Callers
(`PlayerController._resolveCapsuleCollision`, `Vehicle._applyCollision`)
treat `null` exactly like a no-collision answer. -/
theorem C5_queries_before_build (w : CollisionWorldState) (c : Capsule)
    (s : Sphere) (h : w.ready = false) :
    capsuleCollision w c = none ∧ sphereCollision w s = none := by
  simp [capsuleCollision, sphereCollision, h]

theorem C5_queries_before_build_witness :
    unbuiltWorld.ready = false ∧
      (capsuleCollision unbuiltWorld sampleCapsule = none ∧
        sphereCollision unbuiltWorld sampleSphere = none) :=
  ⟨rfl, C5_queries_before_build unbuiltWorld sampleCapsule sampleSphere rfl⟩

-- ── C9: exponential-decay smoothing ──────────────────────────────────

/-- The per-frame lerp factor `Math.min(1, rate * delta)` used both by
`PlayerController.update` (`accelRate * delta`) and by
`Vehicle._applyAcceleration` (`VEHICLE_ACCEL_SMOOTHING * delta`). -/
def lerpFactorOf (rate dl : ℚ) : ℚ := min 1 (rate * dl)

/-- The sequence of values produced by iterating the smoothing step over a
list of frame deltas (first element is the starting value). -/
def expLerpSeq (rate target : ℚ) (v : ℚ) : List ℚ → List ℚ
  | [] => [v]
  | d :: ds => v :: expLerpSeq rate target (expLerpStep v target (lerpFactorOf rate d)) ds

theorem expLerpStep_between (v t f : ℚ) (hf0 : 0 ≤ f) (hf1 : f ≤ 1)
    (hvt : v ≤ t) : v ≤ expLerpStep v t f ∧ expLerpStep v t f ≤ t := by
  unfold expLerpStep
  constructor <;> nlinarith

theorem expLerpStep_between_ge (v t f : ℚ) (hf0 : 0 ≤ f) (hf1 : f ≤ 1)
    (hvt : t ≤ v) : expLerpStep v t f ≤ v ∧ t ≤ expLerpStep v t f := by
  unfold expLerpStep
  constructor <;> nlinarith

theorem expLerpSeq_le_chain (rate target : ℚ) (hrate : 0 ≤ rate) :
    ∀ (ds : List ℚ) (v : ℚ), (∀ d ∈ ds, 0 ≤ d) → v ≤ target →
      List.Chain' (fun a b => a ≤ b) (expLerpSeq rate target v ds) ∧
      ∀ x ∈ expLerpSeq rate target v ds, x ≤ target := by
  intro ds
  induction ds with
  | nil =>
    intro v _ hv
    refine ⟨by simp [expLerpSeq], ?_⟩
    intro x hx
    simp [expLerpSeq] at hx
    exact hx ▸ hv
  | cons d ds ih =>
    intro v hds hv
    have hd : 0 ≤ d := hds d (List.mem_cons_self d ds)
    have hf0 : 0 ≤ lerpFactorOf rate d :=
      le_min (by norm_num) (mul_nonneg hrate hd)
    have hf1 : lerpFactorOf rate d ≤ 1 := min_le_left 1 (rate * d)
    obtain ⟨hstep1, hstep2⟩ :=
      expLerpStep_between v target (lerpFactorOf rate d) hf0 hf1 hv
    obtain ⟨hchain, hmem⟩ :=
      ih (expLerpStep v target (lerpFactorOf rate d))
        (fun e he => hds e (List.mem_cons_of_mem d he)) hstep2
    refine ⟨List.chain'_cons'.mpr ⟨?_, hchain⟩, ?_⟩
    · intro b hb
      have hb' : b = expLerpStep v target (lerpFactorOf rate d) := by
        cases ds <;> simp [expLerpSeq] at hb <;> exact hb.symm
      exact hb' ▸ hstep1
    · intro x hx
      rcases List.mem_cons.mp hx with h | h
      · exact h ▸ hv
      · exact hmem x h

theorem expLerpSeq_ge_chain (rate target : ℚ) (hrate : 0 ≤ rate) :
    ∀ (ds : List ℚ) (v : ℚ), (∀ d ∈ ds, 0 ≤ d) → target ≤ v →
      List.Chain' (fun a b => b ≤ a) (expLerpSeq rate target v ds) ∧
      ∀ x ∈ expLerpSeq rate target v ds, target ≤ x := by
  intro ds
  induction ds with
  | nil =>
    intro v _ hv
    refine ⟨by simp [expLerpSeq], ?_⟩
    intro x hx
    simp [expLerpSeq] at hx
    exact hx ▸ hv
  | cons d ds ih =>
    intro v hds hv
    have hd : 0 ≤ d := hds d (List.mem_cons_self d ds)
    have hf0 : 0 ≤ lerpFactorOf rate d :=
      le_min (by norm_num) (mul_nonneg hrate hd)
    have hf1 : lerpFactorOf rate d ≤ 1 := min_le_left 1 (rate * d)
    obtain ⟨hstep1, hstep2⟩ :=
      expLerpStep_between_ge v target (lerpFactorOf rate d) hf0 hf1 hv
    obtain ⟨hchain, hmem⟩ :=
      ih (expLerpStep v target (lerpFactorOf rate d))
        (fun e he => hds e (List.mem_cons_of_mem d he)) hstep2
    refine ⟨List.chain'_cons'.mpr ⟨?_, hchain⟩, ?_⟩
    · intro b hb
      have hb' : b = expLerpStep v target (lerpFactorOf rate d) := by
        cases ds <;> simp [expLerpSeq] at hb <;> exact hb.symm
      exact hb' ▸ hstep1
    · intro x hx
      rcases List.mem_cons.mp hx with h | h
      · exact h ▸ hv
      · exact hmem x h

/-- C9: for every rate ≥ 0 and every list of frame deltas ≥ 0, iterating the
exponential-decay smoothing step `v += (target - v) * min(1, rate*delta)`
(the step used for the player's horizontal velocity and the vehicle's speed)
produces a sequence that moves monotonically toward the target and never
crosses past it. -/
theorem C9_expLerp_monotone_no_overshoot (rate target v : ℚ) (ds : List ℚ)
    (hrate : 0 ≤ rate) (hds : ∀ d ∈ ds, 0 ≤ d) :
    (v ≤ target →
      List.Chain' (fun a b => a ≤ b) (expLerpSeq rate target v ds) ∧
      ∀ x ∈ expLerpSeq rate target v ds, x ≤ target) ∧
    (target ≤ v →
      List.Chain' (fun a b => b ≤ a) (expLerpSeq rate target v ds) ∧
      ∀ x ∈ expLerpSeq rate target v ds, target ≤ x) :=
  ⟨fun hv => expLerpSeq_le_chain rate target hrate ds v hds hv,
   fun hv => expLerpSeq_ge_chain rate target hrate ds v hds hv⟩

theorem C9_expLerp_monotone_no_overshoot_witness :
    ((0:ℚ) ≤ RUN_SPEED →
      List.Chain' (fun a b => a ≤ b)
        (expLerpSeq PLAYER_ACCEL_RATE RUN_SPEED 0 [1/60, 1/60]) ∧
      ∀ x ∈ expLerpSeq PLAYER_ACCEL_RATE RUN_SPEED 0 [1/60, 1/60],
        x ≤ RUN_SPEED) ∧
    (RUN_SPEED ≤ (0:ℚ) →
      List.Chain' (fun a b => b ≤ a)
        (expLerpSeq PLAYER_ACCEL_RATE RUN_SPEED 0 [1/60, 1/60]) ∧
      ∀ x ∈ expLerpSeq PLAYER_ACCEL_RATE RUN_SPEED 0 [1/60, 1/60],
        RUN_SPEED ≤ x) :=
  C9_expLerp_monotone_no_overshoot PLAYER_ACCEL_RATE RUN_SPEED 0 [1/60, 1/60]
    (by norm_num [PLAYER_ACCEL_RATE])
    (by norm_num)

-- ── PlayerController.js ──────────────────────────────────────────────

def CAPSULE_RADIUS : ℚ := 7/20
def CAPSULE_HEIGHT : ℚ := 9/5

/-- Locomotion state strings of `PlayerController`. -/
inductive LocState
  | idle
  | walk
  | run
  | sprint
  | jump
  | falling
deriving DecidableEq, Repr

/-- Mutable state of a `PlayerController` (plus the owned body's container
position and y-rotation, which the controller mutates). -/
structure PlayerState where
  velocity : Vec3
  grounded : Bool
  locState : LocState
  enabled : Bool
  cameraYaw : ℚ
  coyoteTimer : ℚ
  jumpBufferTimer : ℚ
  position : Vec3
  rotationY : ℚ
deriving DecidableEq, Repr

/-- Per-frame input surface read by `PlayerController.update`
(`isKeyDown` / `getLeftStick` / `isButtonDown GP_LB` /
`isButtonJustPressed GP_A`). -/
structure PInput where
  keyW : Bool
  keyS : Bool
  keyA : Bool
  keyD : Bool
  stickX : ℚ
  stickY : ℚ
  shiftLeft : Bool
  shiftRight : Bool
  ctrlLeft : Bool
  ctrlRight : Bool
  gpLBDown : Bool
  spaceDown : Bool
  gpAJust : Bool
deriving DecidableEq, Repr

/-- Used in proofs and counterexamples: every key released, sticks centred. -/
def noPInput : PInput :=
  ⟨false, false, false, false, 0, 0, false, false, false, false, false,
   false, false⟩

/-- Instrumentation: which jump / grounding branches of one `update` ran.
`jumpMain` is the early jump execution (lines 212–218), `jumpLanding` the
buffered jump inside the ground-plane fallback (lines 267–272),
`landedFallback` the `pos.y <= GROUND_Y` branch, `groundedByCol` the
`normal.y > 0.5` branch of `_resolveCapsuleCollision`. -/
structure PEvents where
  jumpMain : Bool
  jumpLanding : Bool
  landedFallback : Bool
  groundedByCol : Bool
deriving DecidableEq, Repr

def noPEvents : PEvents := ⟨false, false, false, false⟩

/-- Movement-input gathering of `update` (camera basis, WASD + left stick,
normalisation, tier speed and provisional state). -/
structure MoveGather where
  moveDir : Vec3
  hasInput : Bool
  speed : ℚ
  state0 : LocState

def playerGatherMove (O : TrigOracle) (inp : PInput) (cameraYaw : ℚ) :
    MoveGather :=
  let fwd := applyAxisAngle O ⟨0, 0, -1⟩ ⟨0, 1, 0⟩ cameraYaw
  let rgt := applyAxisAngle O ⟨1, 0, 0⟩ ⟨0, 1, 0⟩ cameraYaw
  let m1 := if inp.keyW then Vec3.add Vec3.zero fwd else Vec3.zero
  let m2 := if inp.keyS then Vec3.sub m1 fwd else m1
  let m3 := if inp.keyA then Vec3.sub m2 rgt else m2
  let m4 := if inp.keyD then Vec3.add m3 rgt else m3
  let m5 := if |inp.stickX| > 0 ∨ |inp.stickY| > 0 then
      Vec3.addScaled (Vec3.addScaled m4 fwd (-inp.stickY)) rgt inp.stickX
    else m4
  let hasInput : Bool := decide (Vec3.lengthSq m5 > 0)
  let md := if hasInput then vNormalize O m5 else m5
  if hasInput then
    if inp.shiftLeft || inp.shiftRight || inp.gpLBDown then
      ⟨md, true, SPRINT_SPEED, LocState.sprint⟩
    else if inp.ctrlLeft || inp.ctrlRight then
      ⟨md, true, WALK_SPEED, LocState.walk⟩
    else ⟨md, true, RUN_SPEED, LocState.run⟩
  else ⟨md, false, 0, LocState.idle⟩

/-- Coyote timer, jump buffer and early jump execution of `update`
(lines 189–218). -/
structure JumpPhase where
  coyote : ℚ
  buffer : ℚ
  vy : ℚ
  grounded : Bool
  st : LocState
  fired : Bool

/-- `coyote1`: the coyote timer after the reset/tick of lines 189–194. -/
def pjCoyote1 (s : PlayerState) (dl : ℚ) : ℚ :=
  if s.grounded then COYOTE_TIME else s.coyoteTimer - dl

/-- `buffer1`: the jump-buffer timer after the set/tick of lines 200–206
(`jumpPressed = spaceDown || gpAJust`). -/
def pjBuffer1 (s : PlayerState) (inp : PInput) (dl : ℚ) : ℚ :=
  if (inp.spaceDown || inp.gpAJust) && decide (pjCoyote1 s dl ≤ 0)
    then JUMP_BUFFER_TIME else s.jumpBufferTimer - dl

def playerJumpPhase (s : PlayerState) (inp : PInput) (st0 : LocState)
    (dl : ℚ) : JumpPhase :=
  -- `wantsJump = jumpPressed || buffer1 > 0`, `canJump = coyote1 > 0`
  if (inp.spaceDown || inp.gpAJust || decide (pjBuffer1 s inp dl > 0)) &&
      decide (pjCoyote1 s dl > 0) then
    ⟨0, 0, JUMP_FORCE, false, LocState.jump, true⟩
  else ⟨pjCoyote1 s dl, pjBuffer1 s inp dl, s.velocity.y, s.grounded, st0,
    false⟩

/-- Gravity, acceleration-curve velocity blending and position integration
of `update` (lines 220–250). -/
structure IntegratePhase where
  velocity : Vec3
  pos : Vec3
  st : LocState

def playerIntegrate (mg : MoveGather) (jp : JumpPhase) (s : PlayerState)
    (dl : ℚ) : IntegratePhase :=
  let vy2 := if !jp.grounded then jp.vy + GRAVITY * dl else jp.vy
  let st2 := if !jp.grounded && decide (vy2 < 0) then LocState.falling
    else jp.st
  let targetX := mg.moveDir.x * mg.speed
  let targetZ := mg.moveDir.z * mg.speed
  let rate0 := if mg.hasInput then PLAYER_ACCEL_RATE else PLAYER_DECEL_RATE
  let rate := if !jp.grounded then rate0 * PLAYER_AIR_CONTROL else rate0
  let f := min 1 (rate * dl)
  let vx := expLerpStep s.velocity.x targetX f
  let vz := expLerpStep s.velocity.z targetZ f
  ⟨⟨vx, vy2, vz⟩,
   ⟨s.position.x + vx * dl, s.position.y + vy2 * dl, s.position.z + vz * dl⟩,
   st2⟩

/-- `PlayerController._resolveCapsuleCollision`. -/
structure ResolveOut where
  pos : Vec3
  grounded : Bool
  vy : ℚ
  groundedByCol : Bool

def resolveCapsuleCollision (W : CollisionWorldState) (pos : Vec3)
    (grounded : Bool) (vy : ℚ) : ResolveOut :=
  if !W.ready then ⟨pos, grounded, vy, false⟩
  else
    let cap : Capsule :=
      ⟨⟨pos.x, pos.y + CAPSULE_RADIUS, pos.z⟩,
       ⟨pos.x, pos.y + CAPSULE_HEIGHT - CAPSULE_RADIUS, pos.z⟩,
       CAPSULE_RADIUS⟩
    match capsuleCollision W cap with
    | none => ⟨pos, grounded, vy, false⟩
    | some r =>
      if !r.collided then ⟨pos, grounded, vy, false⟩
      else
        let off := Vec3.smul r.depth r.normal
        let start2 := Vec3.add cap.start off
        let hitUp : Bool := decide (r.normal.y > 1/2)
        ⟨⟨start2.x, start2.y - CAPSULE_RADIUS, start2.z⟩,
         if hitUp then true else grounded,
         if hitUp then max 0 vy else vy,
         hitUp⟩

/-- Ground-plane fallback of `update` (lines 255–273), including the
auto-fired buffered jump on landing. -/
structure FallbackOut where
  pos : Vec3
  vy : ℚ
  grounded : Bool
  buffer : ℚ
  st : LocState
  landed : Bool
  jumpLanding : Bool

def playerGroundFallback (hasInput : Bool) (pos : Vec3) (vy : ℚ)
    (grounded : Bool) (buffer : ℚ) (st : LocState) : FallbackOut :=
  if pos.y ≤ GROUND_Y then
    let st1 := if st = LocState.falling ∨ st = LocState.jump then
        (if hasInput then LocState.run else LocState.idle)
      else st
    if buffer > 0 then
      ⟨⟨pos.x, GROUND_Y, pos.z⟩, JUMP_FORCE, false, 0, LocState.jump,
       true, true⟩
    else ⟨⟨pos.x, GROUND_Y, pos.z⟩, 0, true, buffer, st1, true, false⟩
  else ⟨pos, vy, grounded, buffer, st, false, false⟩

/-- Smooth facing rotation of `update` (lines 275–286). -/
def playerFacing (O : TrigOracle) (hasInput grounded : Bool)
    (moveDir : Vec3) (rotY dl : ℚ) : ℚ :=
  if hasInput && grounded then
    let targetAngle := O.atan2 moveDir.x moveDir.z
    let twoPi := O.pi * 2
    let diff0 := targetAngle - rotY
    let diff := diff0 - (⌊(diff0 + O.pi) / twoPi⌋ : ℚ) * twoPi
    rotY + diff * min 1 (10 * dl)
  else rotY

/-- One full `PlayerController.update(delta)` when the controller is
enabled, returning the new state plus branch instrumentation. -/
def pUpdateCore (O : TrigOracle) (W : CollisionWorldState) (s : PlayerState)
    (inp : PInput) (dl : ℚ) : PlayerState × PEvents :=
  let mg := playerGatherMove O inp s.cameraYaw
  let jp := playerJumpPhase s inp mg.state0 dl
  let ip := playerIntegrate mg jp s dl
  let ro := resolveCapsuleCollision W ip.pos jp.grounded ip.velocity.y
  let fo := playerGroundFallback mg.hasInput ro.pos ro.vy ro.grounded
    jp.buffer ip.st
  let rotY := playerFacing O mg.hasInput fo.grounded mg.moveDir s.rotationY dl
  ({ velocity := ⟨ip.velocity.x, fo.vy, ip.velocity.z⟩,
     grounded := fo.grounded,
     locState := fo.st,
     enabled := s.enabled,
     cameraYaw := s.cameraYaw,
     coyoteTimer := jp.coyote,
     jumpBufferTimer := fo.buffer,
     position := fo.pos,
     rotationY := rotY },
   ⟨jp.fired, fo.jumpLanding, fo.landed, ro.groundedByCol⟩)

/-- `PlayerController.update(delta)`: no-op when `setEnabled(false)`. -/
def pUpdate (O : TrigOracle) (W : CollisionWorldState) (s : PlayerState)
    (inp : PInput) (dl : ℚ) : PlayerState × PEvents :=
  if !s.enabled then (s, noPEvents) else pUpdateCore O W s inp dl

/-- Run a list of frames `(input, delta)` through `pUpdate`. -/
def pRun (O : TrigOracle) (W : CollisionWorldState) :
    PlayerState → List (PInput × ℚ) → PlayerState
  | s, [] => s
  | s, f :: fs => pRun O W (pUpdate O W s f.1 f.2).1 fs

/-- The per-frame instrumentation along a list of frames. -/
def pRunEvents (O : TrigOracle) (W : CollisionWorldState) :
    PlayerState → List (PInput × ℚ) → List PEvents
  | _, [] => []
  | s, f :: fs =>
    (pUpdate O W s f.1 f.2).2 :: pRunEvents O W (pUpdate O W s f.1 f.2).1 fs

/-- Total wall-clock time of a list of frames. -/
def airTime (fs : List (PInput × ℚ)) : ℚ := (fs.map fun f => f.2).sum

-- ── per-stage characterisation lemmas ────────────────────────────────

/-- If the early-jump condition cannot hold (either no jump input with an
expired buffer, or an expired coyote window), the jump phase just ticks the
timers. -/
theorem playerJumpPhase_noFire (s : PlayerState) (i : PInput) (st0 : LocState)
    (dl : ℚ) (hg : s.grounded = false)
    (hcase :
      (i.spaceDown = false ∧ i.gpAJust = false ∧ s.jumpBufferTimer - dl ≤ 0) ∨
        s.coyoteTimer - dl ≤ 0) :
    playerJumpPhase s i st0 dl =
      ⟨s.coyoteTimer - dl,
       (if (i.spaceDown || i.gpAJust) && decide (s.coyoteTimer - dl ≤ 0)
         then JUMP_BUFFER_TIME else s.jumpBufferTimer - dl),
       s.velocity.y, false, st0, false⟩ := by
  unfold playerJumpPhase pjBuffer1 pjCoyote1
  rcases hcase with ⟨h1, h2, hb⟩ | hc
  · simp [hg, h1, h2, not_lt.mpr hb]
  · simp [hg, hc, not_lt.mpr hc]

/-- With a live coyote window and a jump input, the early jump executes. -/
theorem playerJumpPhase_fire (s : PlayerState) (i : PInput) (st0 : LocState)
    (dl : ℚ) (hg : s.grounded = false)
    (hpress : i.spaceDown = true ∨ i.gpAJust = true)
    (hcd : 0 < s.coyoteTimer - dl) :
    playerJumpPhase s i st0 dl =
      ⟨0, 0, JUMP_FORCE, false, LocState.jump, true⟩ := by
  unfold playerJumpPhase pjBuffer1 pjCoyote1
  have hp : (i.spaceDown || i.gpAJust) = true := by
    rcases hpress with h | h <;> simp [h]
  simp [hg, hp, hcd]

theorem resolveCapsuleCollision_notReady {W : CollisionWorldState}
    (h : W.ready = false) (pos : Vec3) (g : Bool) (vy : ℚ) :
    resolveCapsuleCollision W pos g vy = ⟨pos, g, vy, false⟩ := by
  simp [resolveCapsuleCollision, h]

/-- When the resolution step reports no upward contact, it leaves the
grounded flag and vertical velocity alone. -/
theorem resolveCapsuleCollision_noHitUp {W : CollisionWorldState} {pos : Vec3}
    {g : Bool} {vy : ℚ}
    (h : (resolveCapsuleCollision W pos g vy).groundedByCol = false) :
    (resolveCapsuleCollision W pos g vy).grounded = g ∧
      (resolveCapsuleCollision W pos g vy).vy = vy := by
  unfold resolveCapsuleCollision at h ⊢
  rcases hr : W.ready with _ | _ <;> simp [hr] at h ⊢
  rcases hc : capsuleCollision W _ with _ | r
  · simp [hc]
  · rcases hcol : r.collided with _ | _ <;> simp [hc, hcol] at h ⊢
    simp [h]

theorem playerGroundFallback_air {pos : Vec3}
    (h : ¬ pos.y ≤ GROUND_Y) (hasInput : Bool) (vy : ℚ) (g : Bool) (b : ℚ)
    (st : LocState) :
    playerGroundFallback hasInput pos vy g b st =
      ⟨pos, vy, g, b, st, false, false⟩ := by
  simp [playerGroundFallback, h]

theorem playerGroundFallback_landed {pos : Vec3}
    (h : pos.y ≤ GROUND_Y) (hasInput : Bool) (vy : ℚ) (g : Bool) (b : ℚ)
    (st : LocState) :
    (playerGroundFallback hasInput pos vy g b st).landed = true := by
  by_cases hb : 0 < b <;> simp [playerGroundFallback, h, hb]

theorem playerGroundFallback_landBuffered {pos : Vec3} {b : ℚ}
    (h : pos.y ≤ GROUND_Y) (hb : 0 < b) (hasInput : Bool) (vy : ℚ) (g : Bool)
    (st : LocState) :
    playerGroundFallback hasInput pos vy g b st =
      ⟨⟨pos.x, GROUND_Y, pos.z⟩, JUMP_FORCE, false, 0, LocState.jump,
       true, true⟩ := by
  simp [playerGroundFallback, h, hb]

-- ── per-frame step lemmas for the jump claims ────────────────────────

/-- Airborne frame on which no jump may execute (jump input absent with an
expired buffer, or coyote window expired): the controller only ticks the
timers, keeps the character airborne (given that the frame does not land on
the ground plane) and fires no jump. -/
theorem pUpdate_step_noJump (O : TrigOracle) (W : CollisionWorldState)
    (s : PlayerState) (i : PInput) (dl : ℚ)
    (hen : s.enabled = true) (hg : s.grounded = false)
    (hready : W.ready = false)
    (hcase :
      (i.spaceDown = false ∧ i.gpAJust = false ∧ s.jumpBufferTimer - dl ≤ 0) ∨
        s.coyoteTimer - dl ≤ 0)
    (hnoland : (pUpdate O W s i dl).2.landedFallback = false) :
    (pUpdate O W s i dl).1.enabled = true ∧
    (pUpdate O W s i dl).1.grounded = false ∧
    (pUpdate O W s i dl).1.coyoteTimer = s.coyoteTimer - dl ∧
    (pUpdate O W s i dl).1.jumpBufferTimer =
      (if (i.spaceDown || i.gpAJust) && decide (s.coyoteTimer - dl ≤ 0)
        then JUMP_BUFFER_TIME else s.jumpBufferTimer - dl) ∧
    0 < (pUpdate O W s i dl).1.position.y ∧
    (pUpdate O W s i dl).2.jumpMain = false ∧
    (pUpdate O W s i dl).2.jumpLanding = false := by
  set B := (if (i.spaceDown || i.gpAJust) && decide (s.coyoteTimer - dl ≤ 0)
    then JUMP_BUFFER_TIME else s.jumpBufferTimer - dl) with hB
  have hjp := playerJumpPhase_noFire s i
    (playerGatherMove O i s.cameraYaw).state0 dl hg hcase
  rw [← hB] at hjp
  simp only [pUpdate, hen, Bool.not_true, Bool.false_eq_true, if_false,
    pUpdateCore, hjp, resolveCapsuleCollision_notReady hready] at hnoland ⊢
  unfold playerGroundFallback at hnoland ⊢
  split at hnoland
  · exfalso
    revert hnoland
    by_cases hb : (0:ℚ) < B <;> simp [hb]
  · next h =>
    simp only [if_neg h]
    norm_num [GROUND_Y] at h
    simp [hen, h]

/-- Airborne frame with a jump input inside the live coyote window: the
early jump executes, setting vertical velocity to `JUMP_FORCE` (gravity then
integrates in the same frame), state `jump`, and zeroing both timers. -/
theorem pUpdate_step_fire (O : TrigOracle) (W : CollisionWorldState)
    (s : PlayerState) (i : PInput) (dl : ℚ)
    (hen : s.enabled = true) (hg : s.grounded = false) (hready : W.ready = false)
    (hpress : i.spaceDown = true ∨ i.gpAJust = true)
    (hcd : 0 < s.coyoteTimer - dl)
    (hdl : 0 ≤ dl) (hdl2 : dl ≤ 1/2) (hpos : 0 < s.position.y) :
    (pUpdate O W s i dl).2.jumpMain = true ∧
    (pUpdate O W s i dl).2.jumpLanding = false ∧
    (pUpdate O W s i dl).1.locState = LocState.jump ∧
    (pUpdate O W s i dl).1.velocity.y = JUMP_FORCE + GRAVITY * dl ∧
    (pUpdate O W s i dl).1.grounded = false ∧
    (pUpdate O W s i dl).1.coyoteTimer = 0 ∧
    (pUpdate O W s i dl).1.jumpBufferTimer = 0 ∧
    0 < (pUpdate O W s i dl).1.position.y := by
  have hjp := playerJumpPhase_fire s i
    (playerGatherMove O i s.cameraYaw).state0 dl hg hpress hcd
  have hvy : ¬ (JUMP_FORCE + GRAVITY * dl < 0) := by
    unfold JUMP_FORCE GRAVITY
    nlinarith
  have hy : ¬ (s.position.y + (JUMP_FORCE + GRAVITY * dl) * dl ≤ GROUND_Y) := by
    unfold JUMP_FORCE GRAVITY GROUND_Y
    push_neg
    nlinarith
  simp only [pUpdate, hen, Bool.not_true, Bool.false_eq_true, if_false,
    pUpdateCore, hjp, resolveCapsuleCollision_notReady hready]
  unfold playerIntegrate playerGroundFallback
  simp [hvy, hy, hen]
  exact lt_of_not_le (by simpa [GROUND_Y] using hy)

/-- Landing frame with a still-pending jump buffer (and an expired coyote
window, no fresh jump input): the ground-plane fallback auto-fires exactly
the buffered jump. -/
theorem pUpdate_step_landBuffered (O : TrigOracle) (W : CollisionWorldState)
    (s : PlayerState) (i : PInput) (dl : ℚ)
    (hen : s.enabled = true) (hg : s.grounded = false) (hready : W.ready = false)
    (hnp : i.spaceDown = false ∧ i.gpAJust = false)
    (hcoy : s.coyoteTimer - dl ≤ 0)
    (hbuf : 0 < s.jumpBufferTimer - dl)
    (hland : (pUpdate O W s i dl).2.landedFallback = true) :
    (pUpdate O W s i dl).2.jumpMain = false ∧
    (pUpdate O W s i dl).2.jumpLanding = true ∧
    (pUpdate O W s i dl).1.velocity.y = JUMP_FORCE ∧
    (pUpdate O W s i dl).1.jumpBufferTimer = 0 ∧
    (pUpdate O W s i dl).1.locState = LocState.jump ∧
    (pUpdate O W s i dl).1.grounded = false ∧
    (pUpdate O W s i dl).1.coyoteTimer = s.coyoteTimer - dl := by
  have hjp := playerJumpPhase_noFire s i
    (playerGatherMove O i s.cameraYaw).state0 dl hg (Or.inr hcoy)
  simp only [hnp.1, hnp.2, Bool.or_self, Bool.false_and,
    Bool.false_eq_true, if_false] at hjp
  simp only [pUpdate, hen, Bool.not_true, Bool.false_eq_true, if_false,
    pUpdateCore, hjp, resolveCapsuleCollision_notReady hready] at hland ⊢
  unfold playerGroundFallback at hland ⊢
  split at hland
  · next h =>
    simp [h, hbuf, hen]
  · next h =>
    simp [h] at hland

theorem airTime_cons (f : PInput × ℚ) (fs : List (PInput × ℚ)) :
    airTime (f :: fs) = f.2 + airTime fs := by
  simp [airTime]

/-- Invariant along a run of airborne frames without jump input, starting
with an expired coyote window or an expired jump buffer: both timers just
tick down, the character stays airborne, and no jump fires. -/
theorem pRun_air_inv (O : TrigOracle) (W : CollisionWorldState)
    (fs : List (PInput × ℚ)) :
    ∀ s : PlayerState, s.enabled = true → s.grounded = false →
      W.ready = false →
      (s.coyoteTimer ≤ 0 ∨ s.jumpBufferTimer ≤ 0) →
      (∀ f ∈ fs, 0 ≤ f.2) →
      (∀ f ∈ fs, f.1.spaceDown = false ∧ f.1.gpAJust = false) →
      (∀ e ∈ pRunEvents O W s fs, e.landedFallback = false) →
      (pRun O W s fs).enabled = true ∧
      (pRun O W s fs).grounded = false ∧
      (pRun O W s fs).coyoteTimer = s.coyoteTimer - airTime fs ∧
      (pRun O W s fs).jumpBufferTimer = s.jumpBufferTimer - airTime fs ∧
      (fs ≠ [] → 0 < (pRun O W s fs).position.y) ∧
      (∀ e ∈ pRunEvents O W s fs, e.jumpMain = false ∧ e.jumpLanding = false) := by
  induction fs with
  | nil =>
    intro s h1 h2 _ _ _ _ _
    simp [pRun, pRunEvents, airTime, h1, h2]
  | cons f fs ih =>
    intro s hen hg hready hguard hd hnp hnl
    have hf_np := hnp f (List.mem_cons_self f fs)
    have hf_d := hd f (List.mem_cons_self f fs)
    have hf_nl : (pUpdate O W s f.1 f.2).2.landedFallback = false :=
      hnl _ (by simp [pRunEvents])
    have hcase : (f.1.spaceDown = false ∧ f.1.gpAJust = false ∧
        s.jumpBufferTimer - f.2 ≤ 0) ∨ s.coyoteTimer - f.2 ≤ 0 := by
      rcases hguard with h | h
      · exact Or.inr (by linarith)
      · exact Or.inl ⟨hf_np.1, hf_np.2, by linarith⟩
    obtain ⟨q1, q2, q3, q4, q5, q6, q7⟩ :=
      pUpdate_step_noJump O W s f.1 f.2 hen hg hready hcase hf_nl
    rw [hf_np.1, hf_np.2] at q4
    simp only [Bool.or_self, Bool.false_and, Bool.false_eq_true,
      if_false] at q4
    have hguard' : (pUpdate O W s f.1 f.2).1.coyoteTimer ≤ 0 ∨
        (pUpdate O W s f.1 f.2).1.jumpBufferTimer ≤ 0 := by
      rcases hguard with h | h
      · exact Or.inl (by rw [q3]; linarith)
      · exact Or.inr (by rw [q4]; linarith)
    obtain ⟨r1, r2, r3, r4, r5, r6⟩ :=
      ih (pUpdate O W s f.1 f.2).1 q1 q2 hready hguard'
        (fun g hgm => hd g (List.mem_cons_of_mem f hgm))
        (fun g hgm => hnp g (List.mem_cons_of_mem f hgm))
        (fun e he => hnl e (by simp [pRunEvents]; exact Or.inr he))
    refine ⟨?_, ?_, ?_, ?_, ?_, ?_⟩
    · simpa [pRun] using r1
    · simpa [pRun] using r2
    · simp only [pRun, airTime_cons]
      rw [r3, q3]
      ring
    · simp only [pRun, airTime_cons]
      rw [r4, q4]
      ring
    · intro _
      by_cases hfs : fs = []
      · subst hfs
        simpa [pRun] using q5
      · simpa [pRun] using r5 hfs
    · intro e he
      simp only [pRunEvents, List.mem_cons] at he
      rcases he with he | he
      · rw [he]
        exact ⟨q6, q7⟩
      · exact r6 e he

theorem airTime_nonneg (fs : List (PInput × ℚ)) (h : ∀ f ∈ fs, 0 ≤ f.2) :
    0 ≤ airTime fs := by
  induction fs with
  | nil => simp [airTime]
  | cons f fs ih =>
    have h1 := h f (List.mem_cons_self f fs)
    have h2 := ih (fun g hg => h g (List.mem_cons_of_mem f hg))
    rw [airTime_cons]
    linarith

/-- C2 (amended): a jump request issued while airborne with an expired
coyote window, strictly less than `JUMP_BUFFER_TIME = 0.1` s of wall time
before the landing frame, fires exactly one jump, on the landing frame: no
jump fires on the press frame or on any intermediate airborne frame, and the
landing update sets vertical velocity to `JUMP_FORCE`, clears the buffer
timer and enters the `jump` state. -/
theorem C2_buffered_jump_fires_once (O : TrigOracle) (W : CollisionWorldState)
    (s0 : PlayerState) (ip : PInput) (d0 : ℚ) (ms : List (PInput × ℚ))
    (il : PInput) (dn : ℚ)
    (hready : W.ready = false) (hen : s0.enabled = true)
    (hg : s0.grounded = false) (hcoy : s0.coyoteTimer ≤ 0)
    (hpress : ip.spaceDown = true ∨ ip.gpAJust = true) (hd0 : 0 ≤ d0)
    (hpressair : (pUpdate O W s0 ip d0).2.landedFallback = false)
    (hms_d : ∀ f ∈ ms, 0 ≤ f.2)
    (hms_np : ∀ f ∈ ms, f.1.spaceDown = false ∧ f.1.gpAJust = false)
    (hms_air : ∀ e ∈ pRunEvents O W (pUpdate O W s0 ip d0).1 ms,
      e.landedFallback = false)
    (hln : il.spaceDown = false ∧ il.gpAJust = false) (hdn : 0 ≤ dn)
    (htime : airTime ms + dn < JUMP_BUFFER_TIME)
    (hland : (pUpdate O W (pRun O W (pUpdate O W s0 ip d0).1 ms) il
      dn).2.landedFallback = true) :
    (pUpdate O W s0 ip d0).2.jumpMain = false ∧
    (pUpdate O W s0 ip d0).2.jumpLanding = false ∧
    (∀ e ∈ pRunEvents O W (pUpdate O W s0 ip d0).1 ms,
      e.jumpMain = false ∧ e.jumpLanding = false) ∧
    (pUpdate O W (pRun O W (pUpdate O W s0 ip d0).1 ms) il
      dn).2.jumpMain = false ∧
    (pUpdate O W (pRun O W (pUpdate O W s0 ip d0).1 ms) il
      dn).2.jumpLanding = true ∧
    (pUpdate O W (pRun O W (pUpdate O W s0 ip d0).1 ms) il
      dn).1.velocity.y = JUMP_FORCE ∧
    (pUpdate O W (pRun O W (pUpdate O W s0 ip d0).1 ms) il
      dn).1.jumpBufferTimer = 0 ∧
    (pUpdate O W (pRun O W (pUpdate O W s0 ip d0).1 ms) il
      dn).1.locState = LocState.jump := by
  have hp : (ip.spaceDown || ip.gpAJust) = true := by
    rcases hpress with h | h <;> simp [h]
  have hcd0 : s0.coyoteTimer - d0 ≤ 0 := by linarith
  obtain ⟨p1, p2, p3, p4, p5, p6, p7⟩ :=
    pUpdate_step_noJump O W s0 ip d0 hen hg hready (Or.inr hcd0) hpressair
  have p4' : (pUpdate O W s0 ip d0).1.jumpBufferTimer = JUMP_BUFFER_TIME := by
    rw [p4, hp]
    simp [hcd0]
  obtain ⟨r1, r2, r3, r4, r5, r6⟩ :=
    pRun_air_inv O W ms (pUpdate O W s0 ip d0).1 p1 p2 hready
      (Or.inl (by rw [p3]; linarith)) hms_d hms_np hms_air
  have hT := airTime_nonneg ms hms_d
  have hcoyn : (pRun O W (pUpdate O W s0 ip d0).1 ms).coyoteTimer - dn ≤ 0 := by
    rw [r3, p3]
    linarith
  have hbufn : 0 < (pRun O W (pUpdate O W s0 ip d0).1 ms).jumpBufferTimer
      - dn := by
    rw [r4, p4']
    unfold JUMP_BUFFER_TIME at htime ⊢
    linarith
  obtain ⟨l1, l2, l3, l4, l5, l6, l7⟩ :=
    pUpdate_step_landBuffered O W (pRun O W (pUpdate O W s0 ip d0).1 ms) il dn
      r1 r2 hready hln hcoyn hbufn hland
  exact ⟨p6, p7, r6, l1, l2, l3, l4, l5⟩

-- ── concrete player scenarios ────────────────────────────────────────

/-- Falling character past the coyote window (counterexample input for C2:
the jump request arrives exactly `JUMP_BUFFER_TIME` before the landing
frame). -/
def c2s0 : PlayerState :=
  { velocity := ⟨0, -10, 0⟩, grounded := false, locState := LocState.falling,
    enabled := true, cameraYaw := 0, coyoteTimer := 0, jumpBufferTimer := 0,
    position := ⟨0, 6/5, 0⟩, rotationY := 0 }

/-- Falling character past the coyote window, closer to the ground (witness
input: the jump request arrives strictly inside the buffer window). -/
def fallS0 : PlayerState :=
  { velocity := ⟨0, -10, 0⟩, grounded := false, locState := LocState.falling,
    enabled := true, cameraYaw := 0, coyoteTimer := 0, jumpBufferTimer := 0,
    position := ⟨0, 1/2, 0⟩, rotationY := 0 }

/-- Space held, everything else released. -/
def pressSpace : PInput := { noPInput with spaceDown := true }

/-- C2 counterexample: a jump request issued while airborne exactly
`JUMP_BUFFER_TIME = 0.1` s of wall time before the landing frame — hence
"at most 0.1 s before landing" — fires NO jump at all: on the landing frame
the buffer has just expired (`0.1 - 0.1 = 0`, and the code tests
`jumpBufferTimer > 0`), so the character lands into `idle` with vertical
velocity 0 and zero jumps, refuting "exactly one jump, never zero". -/
theorem C2_exact_buffer_boundary_cex :
    (1:ℚ)/10 ≤ JUMP_BUFFER_TIME ∧
    c2s0.grounded = false ∧ c2s0.coyoteTimer ≤ 0 ∧
    (pUpdate zeroOracle unbuiltWorld c2s0 pressSpace (1/20)).2.landedFallback
      = false ∧
    (pUpdate zeroOracle unbuiltWorld c2s0 pressSpace
      (1/20)).1.jumpBufferTimer = JUMP_BUFFER_TIME ∧
    (pUpdate zeroOracle unbuiltWorld c2s0 pressSpace (1/20)).2.jumpMain
      = false ∧
    (pUpdate zeroOracle unbuiltWorld
      (pUpdate zeroOracle unbuiltWorld c2s0 pressSpace (1/20)).1 noPInput
      (1/10)).2.landedFallback = true ∧
    (pUpdate zeroOracle unbuiltWorld
      (pUpdate zeroOracle unbuiltWorld c2s0 pressSpace (1/20)).1 noPInput
      (1/10)).2.jumpLanding = false ∧
    (pUpdate zeroOracle unbuiltWorld
      (pUpdate zeroOracle unbuiltWorld c2s0 pressSpace (1/20)).1 noPInput
      (1/10)).2.jumpMain = false ∧
    (pUpdate zeroOracle unbuiltWorld
      (pUpdate zeroOracle unbuiltWorld c2s0 pressSpace (1/20)).1 noPInput
      (1/10)).1.velocity.y = 0 ∧
    (pUpdate zeroOracle unbuiltWorld
      (pUpdate zeroOracle unbuiltWorld c2s0 pressSpace (1/20)).1 noPInput
      (1/10)).1.locState = LocState.idle := by
  norm_num [pUpdate, pUpdateCore, playerGatherMove, playerJumpPhase,
    pjCoyote1, pjBuffer1,
    playerIntegrate, resolveCapsuleCollision, playerGroundFallback,
    playerFacing, c2s0, pressSpace, noPInput, zeroOracle, unbuiltWorld,
    applyAxisAngle, quatFromAxisAngle, applyQuaternion, vNormalize,
    Vec3.add, Vec3.sub, Vec3.smul, Vec3.addScaled, Vec3.cross, Vec3.lengthSq,
    Vec3.zero, expLerpStep, COYOTE_TIME, JUMP_BUFFER_TIME, JUMP_FORCE,
    GRAVITY, GROUND_Y, PLAYER_ACCEL_RATE, PLAYER_DECEL_RATE,
    PLAYER_AIR_CONTROL, WALK_SPEED, RUN_SPEED, SPRINT_SPEED]

theorem C2_buffered_jump_fires_once_witness :
    (pUpdate zeroOracle unbuiltWorld fallS0 pressSpace (1/100)).2.jumpMain
      = false ∧
    (pUpdate zeroOracle unbuiltWorld fallS0 pressSpace (1/100)).2.jumpLanding
      = false ∧
    (∀ e ∈ pRunEvents zeroOracle unbuiltWorld
      (pUpdate zeroOracle unbuiltWorld fallS0 pressSpace (1/100)).1 [],
      e.jumpMain = false ∧ e.jumpLanding = false) ∧
    (pUpdate zeroOracle unbuiltWorld
      (pRun zeroOracle unbuiltWorld
        (pUpdate zeroOracle unbuiltWorld fallS0 pressSpace (1/100)).1 [])
      noPInput (1/25)).2.jumpMain = false ∧
    (pUpdate zeroOracle unbuiltWorld
      (pRun zeroOracle unbuiltWorld
        (pUpdate zeroOracle unbuiltWorld fallS0 pressSpace (1/100)).1 [])
      noPInput (1/25)).2.jumpLanding = true ∧
    (pUpdate zeroOracle unbuiltWorld
      (pRun zeroOracle unbuiltWorld
        (pUpdate zeroOracle unbuiltWorld fallS0 pressSpace (1/100)).1 [])
      noPInput (1/25)).1.velocity.y = JUMP_FORCE ∧
    (pUpdate zeroOracle unbuiltWorld
      (pRun zeroOracle unbuiltWorld
        (pUpdate zeroOracle unbuiltWorld fallS0 pressSpace (1/100)).1 [])
      noPInput (1/25)).1.jumpBufferTimer = 0 ∧
    (pUpdate zeroOracle unbuiltWorld
      (pRun zeroOracle unbuiltWorld
        (pUpdate zeroOracle unbuiltWorld fallS0 pressSpace (1/100)).1 [])
      noPInput (1/25)).1.locState = LocState.jump :=
  C2_buffered_jump_fires_once zeroOracle unbuiltWorld fallS0 pressSpace
    (1/100) [] noPInput (1/25) rfl rfl rfl (by norm_num [fallS0])
    (Or.inl rfl) (by norm_num)
    (by norm_num [pUpdate, pUpdateCore, playerGatherMove, playerJumpPhase,
    pjCoyote1, pjBuffer1,
      playerIntegrate, resolveCapsuleCollision, playerGroundFallback,
      playerFacing, fallS0, pressSpace, noPInput, zeroOracle, unbuiltWorld,
      applyAxisAngle, quatFromAxisAngle, applyQuaternion, vNormalize,
      Vec3.add, Vec3.sub, Vec3.smul, Vec3.addScaled, Vec3.cross,
      Vec3.lengthSq, Vec3.zero, expLerpStep, COYOTE_TIME, JUMP_BUFFER_TIME,
      JUMP_FORCE, GRAVITY, GROUND_Y, PLAYER_ACCEL_RATE, PLAYER_DECEL_RATE,
      PLAYER_AIR_CONTROL, WALK_SPEED, RUN_SPEED, SPRINT_SPEED])
    (by simp) (by simp) (by simp [pRunEvents]) ⟨rfl, rfl⟩ (by norm_num)
    (by norm_num [airTime, JUMP_BUFFER_TIME])
    (by norm_num [pUpdate, pUpdateCore, pRun, playerGatherMove,
      playerJumpPhase, pjCoyote1, pjBuffer1, playerIntegrate, resolveCapsuleCollision,
      playerGroundFallback, playerFacing, fallS0, pressSpace, noPInput,
      zeroOracle, unbuiltWorld, applyAxisAngle, quatFromAxisAngle,
      applyQuaternion, vNormalize, Vec3.add, Vec3.sub, Vec3.smul,
      Vec3.addScaled, Vec3.cross, Vec3.lengthSq, Vec3.zero, expLerpStep,
      COYOTE_TIME, JUMP_BUFFER_TIME, JUMP_FORCE, GRAVITY, GROUND_Y,
      PLAYER_ACCEL_RATE, PLAYER_DECEL_RATE, PLAYER_AIR_CONTROL, WALK_SPEED,
      RUN_SPEED, SPRINT_SPEED])

/-- C3: if the character has just left the ground without jumping (airborne
with a full coyote timer, no pending buffer) and stays airborne, then a jump
requested while the accumulated airborne time — the deltas of the airborne
frames up to and including the request frame — is strictly below
`COYOTE_TIME = 0.12` s executes on that frame (vertical velocity becomes
`JUMP_FORCE`, plus the same-frame gravity integration, and the state becomes
`jump`); a jump requested once the accumulated airborne time has reached
0.12 s, without an intervening landing, does not execute on that frame. -/
theorem C3_coyote_window (O : TrigOracle) (W : CollisionWorldState)
    (s0 : PlayerState) (ms : List (PInput × ℚ)) (ip : PInput) (d : ℚ)
    (hready : W.ready = false) (hen : s0.enabled = true)
    (hg : s0.grounded = false) (hcoy : s0.coyoteTimer = COYOTE_TIME)
    (hbuf : s0.jumpBufferTimer ≤ 0) (hpos : 0 < s0.position.y)
    (hms_d : ∀ f ∈ ms, 0 ≤ f.2)
    (hms_np : ∀ f ∈ ms, f.1.spaceDown = false ∧ f.1.gpAJust = false)
    (hms_air : ∀ e ∈ pRunEvents O W s0 ms, e.landedFallback = false)
    (hpress : ip.spaceDown = true ∨ ip.gpAJust = true)
    (hd : 0 ≤ d) (hd2 : d ≤ 1/2) :
    (airTime ms + d < COYOTE_TIME →
      (pUpdate O W (pRun O W s0 ms) ip d).2.jumpMain = true ∧
      (pUpdate O W (pRun O W s0 ms) ip d).1.locState = LocState.jump ∧
      (pUpdate O W (pRun O W s0 ms) ip d).1.velocity.y =
        JUMP_FORCE + GRAVITY * d) ∧
    (COYOTE_TIME ≤ airTime ms + d →
      (pUpdate O W (pRun O W s0 ms) ip d).2.landedFallback = false →
      (pUpdate O W (pRun O W s0 ms) ip d).2.jumpMain = false ∧
      (pUpdate O W (pRun O W s0 ms) ip d).2.jumpLanding = false) := by
  obtain ⟨r1, r2, r3, r4, r5, r6⟩ :=
    pRun_air_inv O W ms s0 hen hg hready (Or.inr hbuf) hms_d hms_np hms_air
  have hposn : 0 < (pRun O W s0 ms).position.y := by
    by_cases hms : ms = []
    · subst hms
      simpa [pRun] using hpos
    · exact r5 hms
  constructor
  · intro hT
    have hcd : 0 < (pRun O W s0 ms).coyoteTimer - d := by
      rw [r3, hcoy]
      linarith
    obtain ⟨f1, f2, f3, f4, f5, f6, f7, f8⟩ :=
      pUpdate_step_fire O W (pRun O W s0 ms) ip d r1 r2 hready hpress hcd
        hd hd2 hposn
    exact ⟨f1, f3, f4⟩
  · intro hT hnoland
    have hcd : (pRun O W s0 ms).coyoteTimer - d ≤ 0 := by
      rw [r3, hcoy]
      linarith
    obtain ⟨q1, q2, q3, q4, q5, q6, q7⟩ :=
      pUpdate_step_noJump O W (pRun O W s0 ms) ip d r1 r2 hready
        (Or.inr hcd) hnoland
    exact ⟨q6, q7⟩

/-- Airborne state the frame after walking off a ledge: full coyote window,
empty jump buffer. -/
def coyS0 : PlayerState :=
  { velocity := ⟨0, 0, 0⟩, grounded := false, locState := LocState.falling,
    enabled := true, cameraYaw := 0, coyoteTimer := COYOTE_TIME,
    jumpBufferTimer := 0, position := ⟨0, 1, 0⟩, rotationY := 0 }

theorem C3_coyote_window_witness :
    (airTime [] + 1/20 < COYOTE_TIME →
      (pUpdate zeroOracle unbuiltWorld (pRun zeroOracle unbuiltWorld coyS0 [])
        pressSpace (1/20)).2.jumpMain = true ∧
      (pUpdate zeroOracle unbuiltWorld (pRun zeroOracle unbuiltWorld coyS0 [])
        pressSpace (1/20)).1.locState = LocState.jump ∧
      (pUpdate zeroOracle unbuiltWorld (pRun zeroOracle unbuiltWorld coyS0 [])
        pressSpace (1/20)).1.velocity.y = JUMP_FORCE + GRAVITY * (1/20)) ∧
    (COYOTE_TIME ≤ airTime [] + 1/20 →
      (pUpdate zeroOracle unbuiltWorld (pRun zeroOracle unbuiltWorld coyS0 [])
        pressSpace (1/20)).2.landedFallback = false →
      (pUpdate zeroOracle unbuiltWorld (pRun zeroOracle unbuiltWorld coyS0 [])
        pressSpace (1/20)).2.jumpMain = false ∧
      (pUpdate zeroOracle unbuiltWorld (pRun zeroOracle unbuiltWorld coyS0 [])
        pressSpace (1/20)).2.jumpLanding = false) :=
  C3_coyote_window zeroOracle unbuiltWorld coyS0 [] pressSpace (1/20)
    rfl rfl rfl rfl (by norm_num [coyS0]) (by norm_num [coyS0])
    (by simp) (by simp) (by simp [pRunEvents]) (Or.inl rfl)
    (by norm_num) (by norm_num)

-- ── C10 helpers ──────────────────────────────────────────────────────

theorem playerJumpPhase_fired_eq (s : PlayerState) (i : PInput)
    (st0 : LocState) (dl : ℚ)
    (h : (playerJumpPhase s i st0 dl).fired = true) :
    playerJumpPhase s i st0 dl =
      ⟨0, 0, JUMP_FORCE, false, LocState.jump, true⟩ := by
  unfold playerJumpPhase at h ⊢
  rcases hw : (i.spaceDown || i.gpAJust || decide (pjBuffer1 s i dl > 0)) &&
      decide (pjCoyote1 s dl > 0) with _ | _
  · have hni : ¬ (((i.spaceDown || i.gpAJust ||
        decide (pjBuffer1 s i dl > 0)) &&
        decide (pjCoyote1 s dl > 0)) = true) := by simp [hw]
    rw [if_neg hni] at h
    exact absurd h (by simp)
  · rfl

theorem playerJumpPhase_notFired_coyote (s : PlayerState) (i : PInput)
    (st0 : LocState) (dl : ℚ)
    (h : (playerJumpPhase s i st0 dl).fired = false)
    (hb : 0 < (playerJumpPhase s i st0 dl).buffer) :
    (playerJumpPhase s i st0 dl).coyote ≤ 0 := by
  unfold playerJumpPhase at h hb ⊢
  rcases hw : (i.spaceDown || i.gpAJust || decide (pjBuffer1 s i dl > 0)) &&
      decide (pjCoyote1 s dl > 0) with _ | _
  · have hni : ¬ (((i.spaceDown || i.gpAJust ||
        decide (pjBuffer1 s i dl > 0)) &&
        decide (pjCoyote1 s dl > 0)) = true) := by simp [hw]
    try rw [if_neg hni] at hb
    have hb' : 0 < pjBuffer1 s i dl := hb
    show pjCoyote1 s dl ≤ 0
    by_contra hc
    push_neg at hc
    have hpos : ((i.spaceDown || i.gpAJust ||
        decide (pjBuffer1 s i dl > 0)) &&
        decide (pjCoyote1 s dl > 0)) = true := by simp [hb', hc]
    rw [hpos] at hw
    exact absurd hw (by simp)
  · rw [if_pos hw] at h
    exact absurd h (by simp)

theorem playerGroundFallback_notLanded {hasInput : Bool} {pos : Vec3}
    {vy : ℚ} {g : Bool} {b : ℚ} {st : LocState}
    (h : (playerGroundFallback hasInput pos vy g b st).landed = false) :
    playerGroundFallback hasInput pos vy g b st =
      ⟨pos, vy, g, b, st, false, false⟩ := by
  unfold playerGroundFallback at h ⊢
  by_cases hc : pos.y ≤ GROUND_Y
  · exfalso
    rw [if_pos hc] at h
    revert h
    by_cases hb : (0:ℚ) < b <;> simp [hb]
  · rw [if_neg hc]

theorem playerGroundFallback_bufferZero (hasInput : Bool) (pos : Vec3)
    (vy : ℚ) (g : Bool) (st : LocState) :
    (playerGroundFallback hasInput pos vy g 0 st).buffer = 0 := by
  unfold playerGroundFallback
  by_cases h : pos.y ≤ GROUND_Y <;> simp [h]

theorem playerGroundFallback_jumpLanding {hasInput : Bool} {pos : Vec3}
    {vy : ℚ} {g : Bool} {b : ℚ} {st : LocState}
    (h : (playerGroundFallback hasInput pos vy g b st).jumpLanding = true) :
    playerGroundFallback hasInput pos vy g b st =
      ⟨⟨pos.x, GROUND_Y, pos.z⟩, JUMP_FORCE, false, 0, LocState.jump,
       true, true⟩ ∧ 0 < b := by
  unfold playerGroundFallback at h ⊢
  by_cases hc : pos.y ≤ GROUND_Y
  · by_cases hb : (0:ℚ) < b
    · simp [hc, hb]
    · simp [hc, hb] at h
  · simp [hc] at h

/-- Whenever either jump branch of one `update` runs, the frame ends with
the jump buffer equal to zero, a non-positive coyote timer, and — unless the
same frame re-grounded the character — the grounded flag cleared. -/
theorem pUpdate_jump_post (O : TrigOracle) (W : CollisionWorldState)
    (s : PlayerState) (i : PInput) (dl : ℚ)
    (hj : (pUpdate O W s i dl).2.jumpMain = true ∨
      (pUpdate O W s i dl).2.jumpLanding = true) :
    (pUpdate O W s i dl).1.jumpBufferTimer = 0 ∧
    (pUpdate O W s i dl).1.coyoteTimer ≤ 0 ∧
    ((pUpdate O W s i dl).2.landedFallback = false →
      (pUpdate O W s i dl).2.groundedByCol = false →
      (pUpdate O W s i dl).1.grounded = false) := by
  rcases hsen : s.enabled with _ | _
  · simp [pUpdate, hsen, noPEvents] at hj
  · simp only [pUpdate, hsen, Bool.not_true, Bool.false_eq_true, if_false,
      pUpdateCore] at hj ⊢
    set mg := playerGatherMove O i s.cameraYaw with hmg
    set jp := playerJumpPhase s i mg.state0 dl with hjp
    set ip := playerIntegrate mg jp s dl with hip
    set ro := resolveCapsuleCollision W ip.pos jp.grounded ip.velocity.y
      with hro
    set fo := playerGroundFallback mg.hasInput ro.pos ro.vy ro.grounded
      jp.buffer ip.st with hfo
    rcases hf : jp.fired with _ | _
    · -- the early jump did not run, so the landing jump did
      have hjl : fo.jumpLanding = true := by
        rcases hj with hj | hj
        · rw [hf] at hj
          exact absurd hj (by simp)
        · exact hj
      obtain ⟨hfo_eq, hb⟩ := playerGroundFallback_jumpLanding (hfo ▸ hjl)
      rw [hfo, hfo_eq]
      refine ⟨rfl, ?_, ?_⟩
      · exact playerJumpPhase_notFired_coyote s i mg.state0 dl
          (hjp ▸ hf) (hjp ▸ hb)
      · intro hl _
        exact absurd hl (by simp)
    · -- the early jump ran
      have hrec := playerJumpPhase_fired_eq s i mg.state0 dl (hjp ▸ hf)
      rw [← hjp] at hrec
      refine ⟨?_, ?_, ?_⟩
      · rw [hfo, hrec]
        exact playerGroundFallback_bufferZero _ _ _ _ _
      · rw [hrec]
      · intro hl hc
        have hnl := playerGroundFallback_notLanded (hfo ▸ hl)
        rw [hfo, hnl]
        have := resolveCapsuleCollision_noHitUp (hro ▸ hc)
        rw [hro, this.1, hrec]

/-- Any frame that starts airborne with an expired coyote window and does
not re-ground the character (neither the ground-plane fallback nor an
upward capsule contact fires) also fires no jump and preserves the airborne,
coyote-expired condition.  The collision world may be built or not. -/
theorem pUpdate_step_noGround (O : TrigOracle) (W : CollisionWorldState)
    (s : PlayerState) (i : PInput) (dl : ℚ)
    (hg : s.grounded = false) (hcoy : s.coyoteTimer ≤ 0) (hdl : 0 ≤ dl)
    (hnl : (pUpdate O W s i dl).2.landedFallback = false)
    (hnc : (pUpdate O W s i dl).2.groundedByCol = false) :
    (pUpdate O W s i dl).1.grounded = false ∧
    (pUpdate O W s i dl).1.coyoteTimer ≤ 0 ∧
    (pUpdate O W s i dl).2.jumpMain = false ∧
    (pUpdate O W s i dl).2.jumpLanding = false := by
  rcases hsen : s.enabled with _ | _
  · simp only [pUpdate, hsen, Bool.not_false, if_true]
    exact ⟨hg, hcoy, rfl, rfl⟩
  · have hcd : s.coyoteTimer - dl ≤ 0 := by linarith
    have hjp := playerJumpPhase_noFire s i
      (playerGatherMove O i s.cameraYaw).state0 dl hg (Or.inr hcd)
    set B := (if (i.spaceDown || i.gpAJust) && decide (s.coyoteTimer - dl ≤ 0)
      then JUMP_BUFFER_TIME else s.jumpBufferTimer - dl) with hB
    simp only [pUpdate, hsen, Bool.not_true, Bool.false_eq_true, if_false,
      pUpdateCore, hjp] at hnl hnc ⊢
    set mg := playerGatherMove O i s.cameraYaw with hmg
    set ip := playerIntegrate mg
      ⟨s.coyoteTimer - dl, B, s.velocity.y, false,
       (playerGatherMove O i s.cameraYaw).state0, false⟩ s dl with hip
    set ro := resolveCapsuleCollision W ip.pos false ip.velocity.y with hro
    have hrg := (resolveCapsuleCollision_noHitUp (hro ▸ hnc)).1
    rw [← hro] at hrg
    have hfa := playerGroundFallback_notLanded (hnl)
    rw [hfa, hrg]
    refine ⟨?_, hcd, ?_, ?_⟩ <;> trivial

/-- From any state that is airborne with an expired coyote window (the state
the controller is in right after a jump fires), no jump can fire on any
subsequent frame (deltas ≥ 0) until a frame re-grounds the character. -/
theorem pRun_noGround_noJump (O : TrigOracle) (W : CollisionWorldState)
    (fs : List (PInput × ℚ)) :
    ∀ s : PlayerState, s.grounded = false → s.coyoteTimer ≤ 0 →
      (∀ f ∈ fs, 0 ≤ f.2) →
      (∀ e ∈ pRunEvents O W s fs,
        e.landedFallback = false ∧ e.groundedByCol = false) →
      ∀ e ∈ pRunEvents O W s fs, e.jumpMain = false ∧ e.jumpLanding = false := by
  induction fs with
  | nil =>
    intro s _ _ _ _ e he
    simp [pRunEvents] at he
  | cons f fs ih =>
    intro s hg hcoy hd hng e he
    have hf_ng := hng (pUpdate O W s f.1 f.2).2 (by simp [pRunEvents])
    have hf_d := hd f (List.mem_cons_self f fs)
    obtain ⟨w1, w2, w3, w4⟩ :=
      pUpdate_step_noGround O W s f.1 f.2 hg hcoy hf_d hf_ng.1 hf_ng.2
    simp only [pRunEvents, List.mem_cons] at he
    rcases he with he | he
    · rw [he]
      exact ⟨w3, w4⟩
    · exact ih (pUpdate O W s f.1 f.2).1 w1 w2
        (fun g hgm => hd g (List.mem_cons_of_mem f hgm))
        (fun e2 he2 => hng e2 (by simp [pRunEvents]; exact Or.inr he2))
        e he

/-- C10 (amended): whenever a jump executes inside `PlayerController.update`
— via the early execution or via the buffered jump on landing — the frame
ends with the jump-buffer timer equal to zero and the coyote timer
non-positive (the early jump sets both to exactly zero; the buffered landing
jump zeroes the buffer while the coyote timer, which it does not reassign,
is already ≤ 0), and the character is left airborne unless the same frame
re-grounded it; consequently, starting from the airborne coyote-expired
state a jump leaves behind, no second jump can execute on any subsequent
frame until a frame grounds the character again. -/
theorem C10_jump_zeroes_timers_no_double_jump (O : TrigOracle)
    (W : CollisionWorldState) :
    (∀ (s : PlayerState) (i : PInput) (dl : ℚ),
      ((pUpdate O W s i dl).2.jumpMain = true ∨
        (pUpdate O W s i dl).2.jumpLanding = true) →
      (pUpdate O W s i dl).1.jumpBufferTimer = 0 ∧
      (pUpdate O W s i dl).1.coyoteTimer ≤ 0 ∧
      ((pUpdate O W s i dl).2.landedFallback = false →
        (pUpdate O W s i dl).2.groundedByCol = false →
        (pUpdate O W s i dl).1.grounded = false)) ∧
    (∀ (s : PlayerState) (fs : List (PInput × ℚ)),
      s.grounded = false → s.coyoteTimer ≤ 0 →
      (∀ f ∈ fs, 0 ≤ f.2) →
      (∀ e ∈ pRunEvents O W s fs,
        e.landedFallback = false ∧ e.groundedByCol = false) →
      ∀ e ∈ pRunEvents O W s fs,
        e.jumpMain = false ∧ e.jumpLanding = false) :=
  ⟨fun s i dl hj => pUpdate_jump_post O W s i dl hj,
   fun s fs hg hcoy hd hng => pRun_noGround_noJump O W fs s hg hcoy hd hng⟩

/-- C10 counterexample: a buffered jump fires on landing (`jumpLanding`)
while the coyote timer ends the frame at `-1/20`, not zero — the landing
jump does not set the coyote timer to zero as the claim states (it merely
leaves it non-positive). -/
theorem C10_landing_jump_coyote_not_zero_cex :
    (pUpdate zeroOracle unbuiltWorld
      (pUpdate zeroOracle unbuiltWorld fallS0 pressSpace (1/100)).1 noPInput
      (1/25)).2.jumpLanding = true ∧
    (pUpdate zeroOracle unbuiltWorld
      (pUpdate zeroOracle unbuiltWorld fallS0 pressSpace (1/100)).1 noPInput
      (1/25)).1.coyoteTimer = -(1/20) ∧
    ¬ (pUpdate zeroOracle unbuiltWorld
      (pUpdate zeroOracle unbuiltWorld fallS0 pressSpace (1/100)).1 noPInput
      (1/25)).1.coyoteTimer = 0 := by
  norm_num [pUpdate, pUpdateCore, playerGatherMove, playerJumpPhase,
    pjCoyote1, pjBuffer1,
    playerIntegrate, resolveCapsuleCollision, playerGroundFallback,
    playerFacing, fallS0, pressSpace, noPInput, zeroOracle, unbuiltWorld,
    applyAxisAngle, quatFromAxisAngle, applyQuaternion, vNormalize,
    Vec3.add, Vec3.sub, Vec3.smul, Vec3.addScaled, Vec3.cross, Vec3.lengthSq,
    Vec3.zero, expLerpStep, COYOTE_TIME, JUMP_BUFFER_TIME, JUMP_FORCE,
    GRAVITY, GROUND_Y, PLAYER_ACCEL_RATE, PLAYER_DECEL_RATE,
    PLAYER_AIR_CONTROL, WALK_SPEED, RUN_SPEED, SPRINT_SPEED]

/-- Grounded idle character about to jump (witness input for C10). -/
def groundIdleS0 : PlayerState :=
  { velocity := ⟨0, 0, 0⟩, grounded := true, locState := LocState.idle,
    enabled := true, cameraYaw := 0, coyoteTimer := COYOTE_TIME,
    jumpBufferTimer := 0, position := ⟨0, 0, 0⟩, rotationY := 0 }

theorem C10_jump_zeroes_timers_no_double_jump_witness :
    (pUpdate zeroOracle unbuiltWorld groundIdleS0 pressSpace
      (1/100)).1.jumpBufferTimer = 0 ∧
    (pUpdate zeroOracle unbuiltWorld groundIdleS0 pressSpace
      (1/100)).1.coyoteTimer ≤ 0 ∧
    ((pUpdate zeroOracle unbuiltWorld groundIdleS0 pressSpace
      (1/100)).2.landedFallback = false →
      (pUpdate zeroOracle unbuiltWorld groundIdleS0 pressSpace
        (1/100)).2.groundedByCol = false →
      (pUpdate zeroOracle unbuiltWorld groundIdleS0 pressSpace
        (1/100)).1.grounded = false) :=
  (C10_jump_zeroes_timers_no_double_jump zeroOracle unbuiltWorld).1
    groundIdleS0 pressSpace (1/100)
    (Or.inl (by norm_num [pUpdate, pUpdateCore, playerGatherMove,
      playerJumpPhase, pjCoyote1, pjBuffer1, playerIntegrate,
      resolveCapsuleCollision, playerGroundFallback, playerFacing,
      groundIdleS0, pressSpace, noPInput, zeroOracle, unbuiltWorld,
      applyAxisAngle, quatFromAxisAngle, applyQuaternion, vNormalize,
      Vec3.add, Vec3.sub, Vec3.smul, Vec3.addScaled, Vec3.cross,
      Vec3.lengthSq, Vec3.zero, expLerpStep, COYOTE_TIME, JUMP_BUFFER_TIME,
      JUMP_FORCE, GRAVITY, GROUND_Y, PLAYER_ACCEL_RATE, PLAYER_DECEL_RATE,
      PLAYER_AIR_CONTROL, WALK_SPEED, RUN_SPEED, SPRINT_SPEED]))

/-- C8: when the collision index is built and reports the character capsule
penetrating with contact normal `n` and depth `d`,
`_resolveCapsuleCollision` translates the character position by exactly
`d • n` (the capsule is translated by the offset and the position re-synced
from the capsule start minus the radius).  In particular, for depth `0.3`
and normal `(1,0,0)` the post-resolution position is the pre-resolution
position plus `(0.3, 0, 0)`. -/
theorem C8_resolution_translates_by_normal_depth (W : CollisionWorldState)
    (pos : Vec3) (g : Bool) (vy : ℚ) (n : Vec3) (d : ℚ)
    (hready : W.ready = true)
    (hhit : W.capsuleIntersect
      ⟨⟨pos.x, pos.y + CAPSULE_RADIUS, pos.z⟩,
       ⟨pos.x, pos.y + CAPSULE_HEIGHT - CAPSULE_RADIUS, pos.z⟩,
       CAPSULE_RADIUS⟩ = some ⟨n, d⟩) :
    (resolveCapsuleCollision W pos g vy).pos =
      Vec3.add pos (Vec3.smul d n) := by
  unfold resolveCapsuleCollision capsuleCollision
  simp only [hready, Bool.not_true, Bool.false_eq_true, if_false, hhit]
  simp [Vec3.add, Vec3.smul, Vec3.mk.injEq]
  ring

/-- A built collision index whose capsule query reports a wall penetration
of depth `0.3` with normal `(1,0,0)`. -/
def wallWorld : CollisionWorldState :=
  { ready := true,
    capsuleIntersect := fun _ => some ⟨⟨1, 0, 0⟩, 3/10⟩,
    sphereIntersect := fun _ => none }

theorem C8_resolution_translates_by_normal_depth_witness :
    (resolveCapsuleCollision wallWorld ⟨0, 0, 0⟩ false 0).pos =
      Vec3.add ⟨0, 0, 0⟩ (Vec3.smul (3/10) ⟨1, 0, 0⟩) ∧
    Vec3.add ⟨0, 0, 0⟩ (Vec3.smul (3/10) ⟨1, 0, 0⟩) = (⟨3/10, 0, 0⟩ : Vec3) :=
  ⟨C8_resolution_translates_by_normal_depth wallWorld ⟨0, 0, 0⟩ false 0
      ⟨1, 0, 0⟩ (3/10) rfl rfl,
   by norm_num [Vec3.add, Vec3.smul]⟩

-- ── Vehicle.js (upgraded arcade-physics class) ───────────────────────

/-- Mutable state of a `Vehicle` entity: tuning fields, runtime state,
internal smoothing state, suspension spring-damper, and the owned mesh
transform (position plus Euler rotation, from which three.js derives the
quaternion). -/
structure VehicleState where
  speed : ℚ
  maxSpeed : ℚ
  acceleration : ℚ
  braking : ℚ
  friction : ℚ
  steerSpeed : ℚ
  boostMultiplier : ℚ
  steering : ℚ
  occupied : Bool
  driver : Bool
  steerAngle : ℚ
  driftFactor : ℚ
  prevSpeed : ℚ
  prevSteer : ℚ
  suspensionY : ℚ
  suspensionVel : ℚ
  position : Vec3
  rotation : Vec3
deriving DecidableEq, Repr

/-- A freshly constructed `Vehicle` (constructor defaults). -/
def mkVehicle : VehicleState :=
  { speed := 0, maxSpeed := 40, acceleration := 20, braking := 30,
    friction := 8, steerSpeed := 5/2, boostMultiplier := 9/5, steering := 0,
    occupied := false, driver := false, steerAngle := 0, driftFactor := 0,
    prevSpeed := 0, prevSteer := 0, suspensionY := 0, suspensionVel := 0,
    position := ⟨0, 0, 0⟩, rotation := ⟨0, 0, 0⟩ }

/-- Per-frame input surface read by `Vehicle.drive` / `_gatherInput`. -/
structure DriveInput where
  keyW : Bool
  keyS : Bool
  keyA : Bool
  keyD : Bool
  space : Bool
  shiftLeft : Bool
  shiftRight : Bool
  gpRT : ℚ
  gpLT : ℚ
  stickX : ℚ
  gpB : Bool
  gpLB : Bool
deriving DecidableEq, Repr

def noDriveInput : DriveInput :=
  ⟨false, false, false, false, false, false, false, 0, 0, 0, false, false⟩

/-- Output of `Vehicle._gatherInput`. -/
structure GatherOut where
  accelInput : ℚ
  brakeInput : ℚ
  steerInput : ℚ
  isBraking : Bool
  boosting : Bool
deriving DecidableEq, Repr

/-- `Vehicle._gatherInput`: keyboard defaults, then gamepad overrides. -/
def vGatherInput (inp : DriveInput) (speed : ℚ) : GatherOut :=
  let accel0 : ℚ := if inp.keyS then -1 else if inp.keyW then 1 else 0
  let steer0 : ℚ := if inp.keyD then -1 else if inp.keyA then 1 else 0
  let isBraking0 := inp.space
  let boosting0 := inp.shiftLeft || inp.shiftRight
  let brake0 : ℚ := if isBraking0 then 1 else 0
  let accel1 := if inp.gpRT > 0 then inp.gpRT else accel0
  let brake1 := if inp.gpLT > 0 then inp.gpLT else brake0
  let accel2 := if inp.gpLT > 0 ∧ |speed| < 1/2 then -inp.gpLT else accel1
  let steer1 := if |inp.stickX| > 0 then -inp.stickX else steer0
  let isBraking1 := isBraking0 || inp.gpB
  let brake2 : ℚ := if inp.gpB then 1 else brake1
  let boosting1 := boosting0 || inp.gpLB
  ⟨accel2, brake2, steer1, isBraking1, boosting1⟩

/-- `Vehicle._applyAcceleration`: exponential lerp toward the target speed,
exponential half-life friction with snap-to-zero, lerp braking with
snap-to-zero, and the final clamp to `[-0.3·maxSpd, maxSpd]`. -/
def vApplyAcceleration (O : TrigOracle) (s : VehicleState) (g : GatherOut)
    (maxSpd dl : ℚ) : ℚ :=
  let sp1 :=
    if g.accelInput ≠ 0 then
      let targetSpeed := if g.accelInput > 0 then g.accelInput * maxSpd
        else g.accelInput * maxSpd * (3/10)
      expLerpStep s.speed targetSpeed (min 1 (VEHICLE_ACCEL_SMOOTHING * dl))
    else
      let sp := s.speed * O.powHalf (s.friction * dl)
      if |sp| < 5/100 then 0 else sp
  let sp2 :=
    if g.isBraking ∧ |sp1| > 5/100 then
      let b := mlerp sp1 0 (min 1 (s.braking * g.brakeInput * dl))
      if |b| < 5/100 then 0 else b
    else sp1
  mclamp sp2 (-(maxSpd * (3/10))) maxSpd

/-- `Vehicle._applySteering`. -/
def vApplySteeringS (s : VehicleState) (steerInput dl : ℚ) : VehicleState :=
  let sa := s.steerAngle + (steerInput - s.steerAngle) *
    min 1 (VEHICLE_STEER_SMOOTHING * dl)
  let rotY :=
    if |s.speed| > 1/2 then
      let steerFactor := min 1 (|s.speed| / 10)
      let gripMult := 1 - s.driftFactor * (4/10)
      s.rotation.y + sa * s.steerSpeed * steerFactor * gripMult * dl *
        msign s.speed
    else s.rotation.y
  { s with
    steerAngle := sa
    steering := sa
    rotation := ⟨s.rotation.x, rotY, s.rotation.z⟩ }

/-- `Vehicle._applyDrift` (the `vehicle:drifting` event is external). -/
def vApplyDriftS (s : VehicleState) (dl : ℚ) : VehicleState :=
  if |s.speed| / s.maxSpeed * |s.steerAngle| > VEHICLE_GRIP_THRESHOLD ∧
      |s.speed| / s.maxSpeed > 4/10 then
    { s with driftFactor :=
        s.driftFactor + (1 - s.driftFactor) * min 1 (4 * dl) }
  else
    let d2 := s.driftFactor + (0 - s.driftFactor) * min 1 (3 * dl)
    { s with driftFactor := if d2 < 1/100 then 0 else d2 }

/-- `Vehicle._applyBodyTilt`. -/
def vApplyBodyTiltS (s : VehicleState) (dl : ℚ) : VehicleState :=
  let speedFrac := mclamp (|s.speed| / s.maxSpeed) 0 1
  let tiltTarget := -s.steerAngle * speedFrac * VEHICLE_BODY_TILT_MAX
  { s with rotation := ⟨s.rotation.x, s.rotation.y,
      s.rotation.z + (tiltTarget - s.rotation.z) * min 1 (5 * dl)⟩ }

/-- `Vehicle._applySuspension` (spring constant 80, damping 8, impulses from
speed and steer deltas, clamp to `[-0.15, 0.15]`). -/
def vApplySuspensionS (s : VehicleState) (dl : ℚ) : VehicleState :=
  let speedDelta := s.speed - s.prevSpeed
  let steerDelta := s.steerAngle - s.prevSteer
  let v1 := s.suspensionVel + -speedDelta * (2/100)
  let v2 := v1 + |steerDelta| * (1/100)
  let springForce := -(80:ℚ) * s.suspensionY
  let dampingForce := -(8:ℚ) * v2
  let v3 := v2 + (springForce + dampingForce) * dl
  { s with
    suspensionVel := v3
    suspensionY := mclamp (s.suspensionY + v3 * dl) (-(15/100)) (15/100) }

/-- Translation along the local forward axis
(`(0,0,-1).applyQuaternion(mesh.quaternion)` scaled by `speed * delta`). -/
def vTranslate (O : TrigOracle) (s : VehicleState) (dl : ℚ) : VehicleState :=
  let fwd := applyQuaternion ⟨0, 0, -1⟩ (quatFromEuler O s.rotation)
  { s with position := Vec3.addScaled s.position fwd (s.speed * dl) }

/-- `Vehicle._applyCollision`: bounding-sphere test; on a frontal hit
(forward·normal < -0.3) the speed is cut to 30 %; the vehicle is always
pushed out along the normal by the depth. -/
def vApplyCollisionS (O : TrigOracle) (W : CollisionWorldState)
    (s : VehicleState) : VehicleState :=
  if !W.ready then s
  else
    match sphereCollision W
      ⟨⟨s.position.x, s.position.y + 3/2, s.position.z⟩, 3/2⟩ with
    | none => s
    | some r =>
      if !r.collided then s
      else
        let fwd := applyQuaternion ⟨0, 0, -1⟩ (quatFromEuler O s.rotation)
        let sp := if Vec3.dot fwd r.normal < -(3/10) then s.speed * (3/10)
          else s.speed
        { s with
          speed := sp
          position := Vec3.addScaled s.position r.normal r.depth }

/-- One full `Vehicle.drive(input, delta)` frame (wheel spin, a purely
cosmetic child-mesh rotation, is omitted). -/
def vDrive (O : TrigOracle) (W : CollisionWorldState) (s : VehicleState)
    (inp : DriveInput) (dl : ℚ) : VehicleState :=
  let g := vGatherInput inp s.speed
  let maxSpd := if g.boosting then s.maxSpeed * s.boostMultiplier
    else s.maxSpeed
  let s1 := { s with speed := vApplyAcceleration O s g maxSpd dl }
  let s2 := vApplySteeringS s1 g.steerInput dl
  let s3 := vApplyDriftS s2 dl
  let s4 := vApplyBodyTiltS s3 dl
  let s5 := vApplySuspensionS s4 dl
  let s6 := vTranslate O s5 dl
  let s7 := vApplyCollisionS O W s6
  let s8 := { s7 with position :=
    ⟨s7.position.x, max 0 s7.position.y + s7.suspensionY, s7.position.z⟩ }
  { s8 with prevSpeed := s8.speed, prevSteer := s8.steerAngle }

-- ── C4 / C7 lemmas ───────────────────────────────────────────────────

theorem mclamp_mem (v lo hi : ℚ) (h : lo ≤ hi) :
    lo ≤ mclamp v lo hi ∧ mclamp v lo hi ≤ hi := by
  unfold mclamp
  exact ⟨le_max_left _ _, max_le h (min_le_left _ _)⟩

theorem vApplyAcceleration_mem (O : TrigOracle) (s : VehicleState)
    (g : GatherOut) (maxSpd dl : ℚ) (h : 0 ≤ maxSpd) :
    -(maxSpd * (3/10)) ≤ vApplyAcceleration O s g maxSpd dl ∧
    vApplyAcceleration O s g maxSpd dl ≤ maxSpd := by
  unfold vApplyAcceleration
  exact mclamp_mem _ _ _ (by linarith)

theorem vApplySteeringS_speed (s : VehicleState) (a dl : ℚ) :
    (vApplySteeringS s a dl).speed = s.speed := rfl

theorem vApplyDriftS_speed (s : VehicleState) (dl : ℚ) :
    (vApplyDriftS s dl).speed = s.speed := by
  unfold vApplyDriftS
  split <;> rfl

theorem vApplyBodyTiltS_speed (s : VehicleState) (dl : ℚ) :
    (vApplyBodyTiltS s dl).speed = s.speed := rfl

theorem vApplySuspensionS_speed (s : VehicleState) (dl : ℚ) :
    (vApplySuspensionS s dl).speed = s.speed := rfl

theorem vTranslate_speed (O : TrigOracle) (s : VehicleState) (dl : ℚ) :
    (vTranslate O s dl).speed = s.speed := rfl

theorem vApplyCollisionS_speed_mem (O : TrigOracle)
    (W : CollisionWorldState) (s : VehicleState) (lo hi : ℚ)
    (hlo : lo ≤ 0) (hhi : 0 ≤ hi) (h1 : lo ≤ s.speed) (h2 : s.speed ≤ hi) :
    lo ≤ (vApplyCollisionS O W s).speed ∧
    (vApplyCollisionS O W s).speed ≤ hi := by
  unfold vApplyCollisionS
  split
  · exact ⟨h1, h2⟩
  · split
    · exact ⟨h1, h2⟩
    · split
      · exact ⟨h1, h2⟩
      · dsimp only
        split
        · by_cases hs : 0 ≤ s.speed
          · constructor <;> nlinarith
          · push_neg at hs
            constructor <;> nlinarith
        · exact ⟨h1, h2⟩

theorem vApplySuspensionS_suspY_mem (s : VehicleState) (dl : ℚ) :
    -(15/100) ≤ (vApplySuspensionS s dl).suspensionY ∧
    (vApplySuspensionS s dl).suspensionY ≤ 15/100 := by
  unfold vApplySuspensionS
  exact mclamp_mem _ _ _ (by norm_num)

theorem vTranslate_suspY (O : TrigOracle) (s : VehicleState) (dl : ℚ) :
    (vTranslate O s dl).suspensionY = s.suspensionY := rfl

theorem vApplyCollisionS_suspY (O : TrigOracle) (W : CollisionWorldState)
    (s : VehicleState) :
    (vApplyCollisionS O W s).suspensionY = s.suspensionY := by
  unfold vApplyCollisionS
  split
  · rfl
  · split
    · rfl
    · split
      · rfl
      · rfl

/-- C4: after every `Vehicle.drive(input, delta)` call with `delta ≥ 0` (and
non-negative tuning parameters `maxSpeed`, `boostMultiplier`), the scalar
speed lies in `[-0.3·maxSpeed·boostFactor, maxSpeed·boostFactor]`, where
`boostFactor` is `boostMultiplier` when boost is held that frame and `1`
otherwise — for every prior speed, every input combination, and also on
frames where the collision response scales the speed. -/
theorem C4_speed_clamped (O : TrigOracle) (W : CollisionWorldState)
    (s : VehicleState) (inp : DriveInput) (dl : ℚ)
    (hdl : 0 ≤ dl) (hmax : 0 ≤ s.maxSpeed)
    (hboost : 0 ≤ s.boostMultiplier) :
    -(3/10) * (s.maxSpeed *
      (if (vGatherInput inp s.speed).boosting then s.boostMultiplier
        else 1)) ≤ (vDrive O W s inp dl).speed ∧
    (vDrive O W s inp dl).speed ≤ s.maxSpeed *
      (if (vGatherInput inp s.speed).boosting then s.boostMultiplier
        else 1) := by
  have hms0 : 0 ≤ (if (vGatherInput inp s.speed).boosting
      then s.maxSpeed * s.boostMultiplier else s.maxSpeed) := by
    split
    · exact mul_nonneg hmax hboost
    · exact hmax
  obtain ⟨a1, a2⟩ := vApplyAcceleration_mem O s (vGatherInput inp s.speed)
    (if (vGatherInput inp s.speed).boosting
      then s.maxSpeed * s.boostMultiplier else s.maxSpeed) dl hms0
  have hfac : (if (vGatherInput inp s.speed).boosting
      then s.maxSpeed * s.boostMultiplier else s.maxSpeed) = s.maxSpeed *
      (if (vGatherInput inp s.speed).boosting then s.boostMultiplier
        else 1) := by
    split <;> ring
  suffices h : -((if (vGatherInput inp s.speed).boosting
      then s.maxSpeed * s.boostMultiplier else s.maxSpeed) * (3/10)) ≤
      (vDrive O W s inp dl).speed ∧
      (vDrive O W s inp dl).speed ≤
      (if (vGatherInput inp s.speed).boosting
        then s.maxSpeed * s.boostMultiplier else s.maxSpeed) by
    rw [hfac] at h
    exact ⟨by linarith [h.1], by linarith [h.2]⟩
  unfold vDrive
  dsimp only
  refine vApplyCollisionS_speed_mem O W _ _ _ (by linarith) hms0 ?_ ?_
  · rw [vTranslate_speed, vApplySuspensionS_speed, vApplyBodyTiltS_speed,
      vApplyDriftS_speed, vApplySteeringS_speed]
    exact a1
  · rw [vTranslate_speed, vApplySuspensionS_speed, vApplyBodyTiltS_speed,
      vApplyDriftS_speed, vApplySteeringS_speed]
    exact a2

/-- Forward throttle only (W held). -/
def driveW : DriveInput := { noDriveInput with keyW := true }

theorem C4_speed_clamped_witness :
    -(3/10) * (mkVehicle.maxSpeed *
      (if (vGatherInput driveW mkVehicle.speed).boosting
        then mkVehicle.boostMultiplier else 1)) ≤
      (vDrive zeroOracle unbuiltWorld mkVehicle driveW (1/10)).speed ∧
    (vDrive zeroOracle unbuiltWorld mkVehicle driveW (1/10)).speed ≤
      mkVehicle.maxSpeed *
      (if (vGatherInput driveW mkVehicle.speed).boosting
        then mkVehicle.boostMultiplier else 1) :=
  C4_speed_clamped zeroOracle unbuiltWorld mkVehicle driveW (1/10)
    (by norm_num) (by norm_num [mkVehicle]) (by norm_num [mkVehicle])

theorem vFinal_y_bound (t : VehicleState)
    (hsusp : -(15/100) ≤ t.suspensionY) :
    -(3/20) ≤ max 0 t.position.y + t.suspensionY ∧
    (0 ≤ t.suspensionY → 0 ≤ max 0 t.position.y + t.suspensionY) := by
  have hm := le_max_left (0:ℚ) t.position.y
  exact ⟨by linarith, fun h0 => by linarith⟩

/-- C7 (amended): after every `Vehicle.drive` call the final vertical
position is at or above `-0.15`, not necessarily at or above `0`: the
ground clamp raises the position to `y ≥ 0`, but the suspension offset is
applied after the clamp, so a negative offset (bounded below by the
`[-0.15, 0.15]` suspension clamp) can leave the vehicle up to `0.15` units
below the ground plane.  Whenever the suspension offset is non-negative the
final position is at or above ground height. -/
theorem C7_ground_clamp_with_suspension (O : TrigOracle)
    (W : CollisionWorldState) (s : VehicleState) (inp : DriveInput)
    (dl : ℚ) :
    -(3/20) ≤ (vDrive O W s inp dl).position.y ∧
    (0 ≤ (vDrive O W s inp dl).suspensionY →
      0 ≤ (vDrive O W s inp dl).position.y) := by
  unfold vDrive
  dsimp only
  refine vFinal_y_bound _ ?_
  rw [vApplyCollisionS_suspY, vTranslate_suspY]
  exact (vApplySuspensionS_suspY_mem _ _).1

/-- C7 counterexample: one `drive` frame of a fresh vehicle under full
forward throttle at `delta = 0.1` ends with the vehicle `6/625 = 0.0096`
units below the ground plane: the acceleration impulse gives the suspension
a negative offset and the offset is added after the ground clamp. -/
theorem C7_suspension_below_ground_cex :
    (vDrive zeroOracle unbuiltWorld mkVehicle driveW (1/10)).position.y
      = -(6/625) ∧
    (vDrive zeroOracle unbuiltWorld mkVehicle driveW (1/10)).position.y
      < 0 := by
  norm_num [vDrive, vGatherInput, vApplyAcceleration, vApplySteeringS,
    vApplyDriftS, vApplyBodyTiltS, vApplySuspensionS, vTranslate,
    vApplyCollisionS, mkVehicle, driveW, noDriveInput, zeroOracle,
    unbuiltWorld, expLerpStep, mlerp, mclamp, msign, applyQuaternion,
    quatFromEuler, Vec3.addScaled, Vec3.add, Vec3.smul, Vec3.cross,
    Vec3.dot, VEHICLE_ACCEL_SMOOTHING, VEHICLE_STEER_SMOOTHING,
    VEHICLE_GRIP_THRESHOLD, VEHICLE_BODY_TILT_MAX]

-- ── GameState / VehicleInteraction / DirectorMode ────────────────────

/-- `GameState` modes (`VALID_MODES`); invalid strings are rejected by
`setMode` and are unrepresentable here. -/
inductive Mode
  | free
  | play
  | drive
  | director
deriving DecidableEq, Repr

/-- Joint state of the mode coordinator: the `GameState` singleton's `mode`
and `vehicle` reference (an index into the vehicle array), the vehicles
themselves, the player's visibility/position as mutated by
`VehicleInteraction`, and `DirectorMode`'s saved state. -/
structure SysState where
  mode : Mode
  gsVehicle : Option Nat
  vehicles : List VehicleState
  playerVisible : Bool
  playerPos : Vec3
  directorActive : Bool
  directorPrevMode : Mode
deriving DecidableEq, Repr

/-- `GameState.setMode`: every well-typed mode is in `VALID_MODES`, so the
mode is simply assigned (the `modeChanged` event is external). -/
def sysSetMode (s : SysState) (m : Mode) : SysState := { s with mode := m }

/-- `VehicleInteraction._enterVehicle` on the nearest vehicle `i`.  The
enter path is reachable only while the GameState mode is `play`
(`ModeController.update` only calls `VehicleInteraction.update` in
`play`/`drive`, and in `drive` the interaction is in its exit branch), so
the transition is guarded accordingly; otherwise it is a no-op. -/
def sysEnterVehicle (s : SysState) (i : Nat) : SysState :=
  if h : s.mode = Mode.play ∧ i < s.vehicles.length then
    { s with
      vehicles := s.vehicles.set i
        { s.vehicles.get ⟨i, h.2⟩ with occupied := true, driver := true }
      gsVehicle := some i
      mode := Mode.drive
      playerVisible := false }
  else s

/-- `VehicleInteraction._exitVehicle`, reachable while the mode is `drive`;
a no-op when `GameState.vehicle` is null.  Resets `occupied`, `driver` and
`speed`, places the player beside the vehicle (local `+X` offset rotated by
the vehicle quaternion, `y` forced to 0), restores visibility and switches
back to `play`. -/
def sysExitVehicle (O : TrigOracle) (s : SysState) : SysState :=
  if s.mode = Mode.drive then
    match s.gsVehicle with
    | none => s
    | some i =>
      if h : i < s.vehicles.length then
        let v := s.vehicles.get ⟨i, h⟩
        let p := Vec3.add v.position
          (applyQuaternion ⟨3, 0, 0⟩ (quatFromEuler O v.rotation))
        { s with
          vehicles := s.vehicles.set i
            { v with occupied := false, driver := false, speed := 0 }
          gsVehicle := none
          mode := Mode.play
          playerVisible := true
          playerPos := ⟨p.x, 0, p.z⟩ }
      else s
  else s

/-- `DirectorMode.activate`: saves the current mode and switches to
`director`. -/
def sysDirectorActivate (s : SysState) : SysState :=
  { s with
    directorActive := true
    directorPrevMode := s.mode
    mode := Mode.director }

/-- `DirectorMode.deactivate`: restores the saved mode (falling back to
`free` to avoid a recursive `director` restore). -/
def sysDirectorDeactivate (s : SysState) : SysState :=
  { s with
    directorActive := false
    mode := if s.directorPrevMode = Mode.director then Mode.free
      else s.directorPrevMode }

/-- The enter/exit transitions of `VehicleInteraction`. -/
inductive VOp
  | enter (i : Nat)
  | exitVeh
deriving DecidableEq, Repr

def sysApplyVOp (O : TrigOracle) (s : SysState) : VOp → SysState
  | VOp.enter i => sysEnterVehicle s i
  | VOp.exitVeh => sysExitVehicle O s

def sysRunVOps (O : TrigOracle) : SysState → List VOp → SysState
  | s, [] => s
  | s, op :: ops => sysRunVOps O (sysApplyVOp O s op) ops

/-- Vehicle `i` exists, is occupied, and has the player as driver. -/
def occupiedAt (s : SysState) (i : Nat) : Prop :=
  ∃ h : i < s.vehicles.length,
    (s.vehicles.get ⟨i, h⟩).occupied = true ∧
    (s.vehicles.get ⟨i, h⟩).driver = true

/-- Exactly one vehicle is occupied, and it has the player as driver. -/
def exactlyOneOccupied (s : SysState) : Prop :=
  ∃ i, occupiedAt s i ∧
    ∀ j, (∃ h : j < s.vehicles.length,
      (s.vehicles.get ⟨j, h⟩).occupied = true) → j = i

/-- The biconditional asserted by the claim: the mode is `drive` iff
exactly one vehicle is occupied with the player as driver. -/
def modeDriveIffOneOccupied (s : SysState) : Prop :=
  s.mode = Mode.drive ↔ exactlyOneOccupied s

/-- Inductive invariant tying the mode, `GameState.vehicle` and vehicle
occupancy together. -/
def SysInv (s : SysState) : Prop :=
  (s.mode = Mode.drive →
    ∃ i, s.gsVehicle = some i ∧ occupiedAt s i ∧
      ∀ j, (∃ h : j < s.vehicles.length,
        (s.vehicles.get ⟨j, h⟩).occupied = true) → j = i) ∧
  (s.mode ≠ Mode.drive →
    s.gsVehicle = none ∧
    ∀ j (h : j < s.vehicles.length),
      (s.vehicles.get ⟨j, h⟩).occupied = false)

theorem sysEnterVehicle_inv (s : SysState) (i : Nat) (hinv : SysInv s) :
    SysInv (sysEnterVehicle s i) := by
  unfold sysEnterVehicle
  split
  · next hg =>
    obtain ⟨hmode, hlen⟩ := hg
    have hall := (hinv.2 (by rw [hmode]; intro hc; cases hc)).2
    constructor
    · intro _
      have hlen2 : i < ((s.vehicles.set i
          { s.vehicles.get ⟨i, hlen⟩ with
            occupied := true, driver := true }).length) := by
        rw [List.length_set]
        exact hlen
      refine ⟨i, rfl, ⟨hlen2, ?_, ?_⟩, ?_⟩
      · rw [List.get_set_eq]
      · rw [List.get_set_eq]
      · intro j hj
        obtain ⟨hjl, hjo⟩ := hj
        by_contra hne
        rw [List.get_set_ne (fun he => hne he.symm) hjl] at hjo
        · exact absurd hjo (by
            rw [hall j (by simpa using hjl)]
            simp)
    · intro hne
      exact absurd rfl hne
  · exact hinv

theorem sysExitVehicle_inv (O : TrigOracle) (s : SysState)
    (hinv : SysInv s) : SysInv (sysExitVehicle O s) := by
  unfold sysExitVehicle
  split
  · next hm =>
    obtain ⟨k, hk, hko, huniq⟩ := hinv.1 hm
    split
    · next hnone =>
      rw [hnone] at hk
      cases hk
    · next i hsome =>
      rw [hsome] at hk
      have hki : k = i := by injection hk with h; exact h.symm
      subst hki
      obtain ⟨hklen, hkocc, hkdrv⟩ := hko
      split
      · next hilen =>
        constructor
        · intro hd
          exact absurd hd (by intro hc; cases hc)
        · intro _
          refine ⟨rfl, ?_⟩
          intro j hj
          have hjl : j < s.vehicles.length := by simpa using hj
          by_cases hji : j = k
          · subst hji
            rw [List.get_set_eq]
          · rw [List.get_set_ne (fun he => hji he.symm) hj]
            by_contra hocc
            simp only [Bool.not_eq_false] at hocc
            exact hji (huniq j ⟨hjl, hocc⟩)
      · next hilen =>
        exact absurd hklen hilen
  · exact hinv

theorem sysInv_biconditional (s : SysState) (hinv : SysInv s) :
    modeDriveIffOneOccupied s := by
  constructor
  · intro hd
    obtain ⟨i, _, hocc, huniq⟩ := hinv.1 hd
    exact ⟨i, hocc, huniq⟩
  · intro hone
    by_contra hne
    obtain ⟨hnone, hall⟩ := hinv.2 hne
    obtain ⟨i, ⟨hi, hocc, _⟩, _⟩ := hone
    rw [hall i hi] at hocc
    cases hocc

theorem sysRunVOps_inv (O : TrigOracle) (ops : List VOp) :
    ∀ s : SysState, SysInv s → SysInv (sysRunVOps O s ops) := by
  induction ops with
  | nil => intro s h; exact h
  | cons op ops ih =>
    intro s h
    rcases op with i | _
    · exact ih _ (sysEnterVehicle_inv s i h)
    · exact ih _ (sysExitVehicle_inv O s h)

/-- C1 (amended): the vehicle enter/exit transitions of
`VehicleInteraction` (the only operations that change occupancy) preserve
the coordinator invariant, and hence the biconditional "mode is `drive` iff
exactly one vehicle is occupied with the player as driver" holds after any
sequence of enter/exit operations from an invariant-satisfying state.  The
biconditional is NOT preserved by raw `GameState.setMode` requests or by
`DirectorMode` transitions (see the counterexample): `setMode` assigns any
valid mode without consulting occupancy. -/
theorem C1_enter_exit_preserve_drive_iff_occupied (O : TrigOracle)
    (s : SysState) (ops : List VOp) (hinv : SysInv s) :
    SysInv (sysRunVOps O s ops) ∧
    modeDriveIffOneOccupied (sysRunVOps O s ops) :=
  ⟨sysRunVOps_inv O ops s hinv,
   sysInv_biconditional _ (sysRunVOps_inv O ops s hinv)⟩

/-- Initial world: one unoccupied vehicle, free camera mode. -/
def sysFree : SysState :=
  { mode := Mode.free, gsVehicle := none, vehicles := [mkVehicle],
    playerVisible := true, playerPos := ⟨0, 0, 0⟩,
    directorActive := false, directorPrevMode := Mode.free }

/-- Same world in `play` mode. -/
def sysPlay : SysState := { sysFree with mode := Mode.play }

/-- C1 counterexample: the claim quantifies over mode requests through
`GameState.setMode`, but `setMode` assigns any valid mode without
consulting vehicle occupancy: from a state satisfying the biconditional
(mode `free`, no occupied vehicle), the single operation
`setMode('drive')` yields mode `drive` with zero occupied vehicles, so the
biconditional is not preserved by every sequence of the listed
operations. -/
theorem C1_setMode_breaks_biconditional_cex :
    modeDriveIffOneOccupied sysFree ∧
    (sysSetMode sysFree Mode.drive).mode = Mode.drive ∧
    ¬ exactlyOneOccupied (sysSetMode sysFree Mode.drive) ∧
    ¬ modeDriveIffOneOccupied (sysSetMode sysFree Mode.drive) := by
  have hno : ¬ exactlyOneOccupied (sysSetMode sysFree Mode.drive) := by
    rintro ⟨i, ⟨hi, hocc, -⟩, -⟩
    have h1 : i < 1 := by simpa [sysSetMode, sysFree] using hi
    have h0 : i = 0 := by omega
    subst h0
    simp [sysSetMode, sysFree, mkVehicle] at hocc
  refine ⟨⟨?_, ?_⟩, rfl, hno, ?_⟩
  · intro h
    simp [sysFree] at h
  · rintro ⟨i, ⟨hi, hocc, -⟩, -⟩
    have h1 : i < 1 := by simpa [sysFree] using hi
    have h0 : i = 0 := by omega
    subst h0
    simp [sysFree, mkVehicle] at hocc
  · intro hbic
    exact hno (hbic.mp rfl)

theorem C1_enter_exit_preserve_drive_iff_occupied_witness :
    SysInv (sysRunVOps zeroOracle sysPlay [VOp.enter 0, VOp.exitVeh]) ∧
    modeDriveIffOneOccupied
      (sysRunVOps zeroOracle sysPlay [VOp.enter 0, VOp.exitVeh]) :=
  C1_enter_exit_preserve_drive_iff_occupied zeroOracle sysPlay
    [VOp.enter 0, VOp.exitVeh]
    (by
      constructor
      · intro h
        simp [sysPlay, sysFree] at h
      · intro _
        refine ⟨rfl, ?_⟩
        intro j hj
        have h1 : j < 1 := by simpa [sysPlay, sysFree] using hj
        have h0 : j = 0 := by omega
        subst h0
        rfl)

/-- C6 (amended): `VehicleInteraction._exitVehicle` resets the exiting
vehicle's scalar speed to zero (and clears `occupied`/`driver`, switching
the mode back to `play`), but it does NOT reset the drift factor or the
suspension offset/velocity — those retain their values (they are cleared
only by `Vehicle.dispose`). -/
theorem C6_exit_resets_speed_only (O : TrigOracle) (s : SysState) (i : Nat)
    (hm : s.mode = Mode.drive) (hv : s.gsVehicle = some i)
    (hi : i < s.vehicles.length) :
    ∃ h2 : i < (sysExitVehicle O s).vehicles.length,
      ((sysExitVehicle O s).vehicles.get ⟨i, h2⟩).speed = 0 ∧
      ((sysExitVehicle O s).vehicles.get ⟨i, h2⟩).occupied = false ∧
      ((sysExitVehicle O s).vehicles.get ⟨i, h2⟩).driver = false ∧
      ((sysExitVehicle O s).vehicles.get ⟨i, h2⟩).driftFactor =
        (s.vehicles.get ⟨i, hi⟩).driftFactor ∧
      ((sysExitVehicle O s).vehicles.get ⟨i, h2⟩).suspensionY =
        (s.vehicles.get ⟨i, hi⟩).suspensionY ∧
      ((sysExitVehicle O s).vehicles.get ⟨i, h2⟩).suspensionVel =
        (s.vehicles.get ⟨i, hi⟩).suspensionVel ∧
      (sysExitVehicle O s).mode = Mode.play ∧
      (sysExitVehicle O s).gsVehicle = none := by
  unfold sysExitVehicle
  rw [hm, hv]
  rw [if_pos rfl]
  dsimp only
  rw [dif_pos hi]
  have h2 : i < (s.vehicles.set i
      { s.vehicles.get ⟨i, hi⟩ with
        occupied := false, driver := false, speed := 0 }).length := by
    rw [List.length_set]
    exact hi
  refine ⟨h2, ?_⟩
  simp [List.get_set_eq]

/-- A vehicle mid-drift with compressed suspension, occupied by the
player. -/
def driftVehicle : VehicleState :=
  { mkVehicle with
    speed := 33
    occupied := true
    driver := true
    driftFactor := 1/2
    suspensionY := 1/10
    suspensionVel := -2 }

/-- Drive-mode system state for the C6 counterexample. -/
def sysDrift : SysState :=
  { mode := Mode.drive, gsVehicle := some 0, vehicles := [driftVehicle],
    playerVisible := false, playerPos := ⟨0, 0, 0⟩,
    directorActive := false, directorPrevMode := Mode.free }

/-- C6 counterexample: on a vehicle-exit event the code resets only the
speed — the exiting vehicle's drift factor and suspension offset/velocity
keep their pre-exit values (here `1/2`, `1/10` and `-2`), refuting "speed,
drift factor, and suspension offset and suspension velocity are all reset
to zero". -/
theorem C6_exit_keeps_drift_suspension_cex :
    ((sysExitVehicle zeroOracle sysDrift).vehicles.get? 0).isSome = true ∧
    (((sysExitVehicle zeroOracle sysDrift).vehicles.get? 0).map
      (fun v => v.speed)) = some 0 ∧
    (((sysExitVehicle zeroOracle sysDrift).vehicles.get? 0).map
      (fun v => v.occupied)) = some false ∧
    (((sysExitVehicle zeroOracle sysDrift).vehicles.get? 0).map
      (fun v => v.driftFactor)) = some (1/2) ∧
    (((sysExitVehicle zeroOracle sysDrift).vehicles.get? 0).map
      (fun v => v.suspensionY)) = some (1/10) ∧
    (((sysExitVehicle zeroOracle sysDrift).vehicles.get? 0).map
      (fun v => v.suspensionVel)) = some (-2) ∧
    ¬ (((sysExitVehicle zeroOracle sysDrift).vehicles.get? 0).map
      (fun v => v.driftFactor)) = some 0 := by
  norm_num [sysExitVehicle, sysDrift, driftVehicle, mkVehicle, zeroOracle,
    applyQuaternion, quatFromEuler, Vec3.add, Vec3.smul, Vec3.cross]

theorem C6_exit_resets_speed_only_witness :
    ∃ h2 : 0 < (sysExitVehicle zeroOracle sysDrift).vehicles.length,
      ((sysExitVehicle zeroOracle sysDrift).vehicles.get ⟨0, h2⟩).speed = 0 ∧
      ((sysExitVehicle zeroOracle sysDrift).vehicles.get
        ⟨0, h2⟩).occupied = false ∧
      ((sysExitVehicle zeroOracle sysDrift).vehicles.get
        ⟨0, h2⟩).driver = false ∧
      ((sysExitVehicle zeroOracle sysDrift).vehicles.get
        ⟨0, h2⟩).driftFactor =
        (sysDrift.vehicles.get ⟨0, by simp [sysDrift]⟩).driftFactor ∧
      ((sysExitVehicle zeroOracle sysDrift).vehicles.get
        ⟨0, h2⟩).suspensionY =
        (sysDrift.vehicles.get ⟨0, by simp [sysDrift]⟩).suspensionY ∧
      ((sysExitVehicle zeroOracle sysDrift).vehicles.get
        ⟨0, h2⟩).suspensionVel =
        (sysDrift.vehicles.get ⟨0, by simp [sysDrift]⟩).suspensionVel ∧
      (sysExitVehicle zeroOracle sysDrift).mode = Mode.play ∧
      (sysExitVehicle zeroOracle sysDrift).gsVehicle = none :=
  C6_exit_resets_speed_only zeroOracle sysDrift 0 rfl rfl
    (by simp [sysDrift])
